import Mathlib

/-!
# The scull character driver: control dispatcher, caller registry, teardown, harness

A shallow embedding of `driver/scull.c` (`scull_ioctl`, `scull_cleanup_module`) and of the
user-space harness `src/scull.c` (`parse_arguments`, `do_op`, `main`).

Conventions.
* C `int` and `long` values are `Int`; `unsigned` values are `Nat`.  A narrowing
  conversion the C code performs (`scull_quantum = arg`, `retval = copy_to_user(..)`) is the
  explicit wrap `toInt32`.
* The driver state is the pair of globals `scull_quantum`, `mylinkedlist`.
* What the kernel and the calling process supply to one call (the `current` task, the
  outcome of `kmalloc`, the accessibility and content of user memory) is an explicit
  argument; every call returns its result, the new state, the new user memory and the ordered
  list of the primitives it invoked.
-/

namespace Scull

/-! ## Kernel constants and the ioctl command encoding (`asm-generic/ioctl.h`) -/

def ENOTTY : Int := 25
def EFAULT : Int := 14

def VERIFY_READ : Nat := 0
def VERIFY_WRITE : Nat := 1

def _IOC_NRBITS : Nat := 8
def _IOC_TYPEBITS : Nat := 8
def _IOC_SIZEBITS : Nat := 14
def _IOC_DIRBITS : Nat := 2

def _IOC_NRMASK : Nat := (1 <<< _IOC_NRBITS) - 1
def _IOC_TYPEMASK : Nat := (1 <<< _IOC_TYPEBITS) - 1
def _IOC_SIZEMASK : Nat := (1 <<< _IOC_SIZEBITS) - 1
def _IOC_DIRMASK : Nat := (1 <<< _IOC_DIRBITS) - 1

def _IOC_NRSHIFT : Nat := 0
def _IOC_TYPESHIFT : Nat := _IOC_NRSHIFT + _IOC_NRBITS
def _IOC_SIZESHIFT : Nat := _IOC_TYPESHIFT + _IOC_TYPEBITS
def _IOC_DIRSHIFT : Nat := _IOC_SIZESHIFT + _IOC_SIZEBITS

def _IOC_NONE : Nat := 0
def _IOC_WRITE : Nat := 1
def _IOC_READ : Nat := 2

/-- The macro `_IOC(dir,type,nr,size)`. -/
def _IOC (dir type nr size : Nat) : Nat :=
  (dir <<< _IOC_DIRSHIFT) ||| (type <<< _IOC_TYPESHIFT) ||| (nr <<< _IOC_NRSHIFT) |||
    (size <<< _IOC_SIZESHIFT)

def _IOC_DIR (nr : Nat) : Nat := (nr >>> _IOC_DIRSHIFT) &&& _IOC_DIRMASK
def _IOC_TYPE (nr : Nat) : Nat := (nr >>> _IOC_TYPESHIFT) &&& _IOC_TYPEMASK
def _IOC_NR (nr : Nat) : Nat := (nr >>> _IOC_NRSHIFT) &&& _IOC_NRMASK
def _IOC_SIZE (nr : Nat) : Nat := (nr >>> _IOC_SIZESHIFT) &&& _IOC_SIZEMASK

/-- The conversion of an `unsigned long` to `int`: keep the low 32 bits, read them as
two's complement. -/
def toInt32 (n : Nat) : Int :=
  if n % 2 ^ 32 < 2 ^ 31 then ((n % 2 ^ 32 : Nat) : Int) else ((n % 2 ^ 32 : Nat) : Int) - 2 ^ 32

/-- The conversion of an `int` to the 64-bit `unsigned long` in which an ioctl argument
travels (sign extension). -/
def toULong (v : Int) : Nat := (v % 2 ^ 64).toNat

/-! ## Data model -/

/-- The `struct record` of `driver/scull.c` (the `list_head` link is the position in the
list). -/
structure record where
  pid : Int
  tgid : Int
deriving DecidableEq

/-- The fields of `current` (a `struct task_struct`) the driver reads. -/
structure task_struct where
  state : Int
  stack : Nat
  nr_cpus_allowed : Nat
  prio : Int
  static_prio : Int
  normal_prio : Int
  rt_priority : Nat
  pid : Int
  tgid : Int
  nvcsw : Nat
  nivcsw : Nat
deriving DecidableEq

/-- The `struct task_info` the INFO operation fills in (fields as assigned in
`scull_ioctl`, same layout as `struct TASKSTRUCT` of `taskstruct.h`). -/
structure task_info where
  state : Int
  stack : Nat
  cpu : Nat
  prio : Int
  static_prio : Int
  normal_prio : Int
  rt_priority : Nat
  pid : Int
  tgid : Int
  nvcsw : Nat
  nivcsw : Nat
deriving DecidableEq

/-- The constants of `scull.h`, which is not among the sources: the default quantum, the
magic tag, the largest command number, the eight command codes and `sizeof(struct
task_info)`.  They are parameters of the embedding. -/
structure Header where
  SCULL_QUANTUM : Int
  SCULL_IOC_MAGIC : Nat
  SCULL_IOC_MAXNR : Nat
  SCULL_IOCRESET : Nat
  SCULL_IOCSQUANTUM : Nat
  SCULL_IOCTQUANTUM : Nat
  SCULL_IOCGQUANTUM : Nat
  SCULL_IOCQQUANTUM : Nat
  SCULL_IOCXQUANTUM : Nat
  SCULL_IOCHQUANTUM : Nat
  SCULL_IOCIQUANTUM : Nat
  sizeof_task_info : Nat

/-- The eight command codes, in the order of the `case` labels. -/
def Header.codes (h : Header) : List Nat :=
  [h.SCULL_IOCRESET, h.SCULL_IOCSQUANTUM, h.SCULL_IOCTQUANTUM, h.SCULL_IOCGQUANTUM,
   h.SCULL_IOCQQUANTUM, h.SCULL_IOCXQUANTUM, h.SCULL_IOCHQUANTUM, h.SCULL_IOCIQUANTUM]

/-- Modelled from the spec: `scull.h` is missing, so what it must declare is taken from
the spec's operation table and interface section.  The eight codes are distinct (they label
the cases of one `switch`), carry the one magic tag, have a number no larger than
`SCULL_IOC_MAXNR`, and have the transfer direction of the table: none for RESET, TELL,
QUERY and SHIFT, in (`_IOC_WRITE`) for SET, out (`_IOC_READ`) for GET and INFO, both for
EXCHANGE. -/
def Header.Declared (h : Header) : Prop :=
  h.codes.Nodup ∧
  (∀ c ∈ h.codes, _IOC_TYPE c = h.SCULL_IOC_MAGIC ∧ _IOC_NR c ≤ h.SCULL_IOC_MAXNR) ∧
  _IOC_DIR h.SCULL_IOCRESET = _IOC_NONE ∧
  _IOC_DIR h.SCULL_IOCSQUANTUM = _IOC_WRITE ∧
  _IOC_DIR h.SCULL_IOCTQUANTUM = _IOC_NONE ∧
  _IOC_DIR h.SCULL_IOCGQUANTUM = _IOC_READ ∧
  _IOC_DIR h.SCULL_IOCQQUANTUM = _IOC_NONE ∧
  _IOC_DIR h.SCULL_IOCXQUANTUM = (_IOC_READ ||| _IOC_WRITE) ∧
  _IOC_DIR h.SCULL_IOCHQUANTUM = _IOC_NONE ∧
  _IOC_DIR h.SCULL_IOCIQUANTUM = _IOC_READ

instance (h : Header) : Decidable h.Declared := by
  unfold Header.Declared; infer_instance

/-- Modelled from the spec: a concrete `scull.h`.  The spec numbers the eight operations
1..8 under one magic tag, in the order RESET, SET, TELL, GET, QUERY, EXCHANGE, SHIFT, INFO,
with the directions of its operation table.  The spec fixes neither the tag nor the default
quantum; the values of the original scull driver (`'k'`, 4000) stand in for them, and
`sizeof(struct task_info)` is its LP64 size. -/
def scull_h : Header where
  SCULL_QUANTUM := 4000
  SCULL_IOC_MAGIC := 107
  SCULL_IOC_MAXNR := 8
  SCULL_IOCRESET := _IOC _IOC_NONE 107 1 0
  SCULL_IOCSQUANTUM := _IOC _IOC_WRITE 107 2 4
  SCULL_IOCTQUANTUM := _IOC _IOC_NONE 107 3 0
  SCULL_IOCGQUANTUM := _IOC _IOC_READ 107 4 4
  SCULL_IOCQQUANTUM := _IOC _IOC_NONE 107 5 0
  SCULL_IOCXQUANTUM := _IOC (_IOC_READ ||| _IOC_WRITE) 107 6 4
  SCULL_IOCHQUANTUM := _IOC _IOC_NONE 107 7 0
  SCULL_IOCIQUANTUM := _IOC _IOC_READ 107 8 64
  sizeof_task_info := 64

/-- The globals of the driver that the control operations touch. -/
structure Dev where
  scull_quantum : Int
  mylinkedlist : List record
deriving DecidableEq

/-- The calling process's memory as the driver sees it.
* `access_ok ty addr size` is the verdict of `access_ok_wrapper` (a range check);
* `readable addr` / `writable addr` say whether a load / store of an `int` at `addr`
  succeeds (it can fault although the range check passed);
* `word addr` is the `int` stored at `addr`;
* `uncopied addr n` is the number of bytes a block copy of `n` bytes to `addr` leaves
  uncopied.  The block itself is recorded in the trace of the call, not in `word`. -/
structure UserSpace where
  access_ok : Nat → Nat → Nat → Bool
  readable : Nat → Bool
  writable : Nat → Bool
  word : Nat → Int
  uncopied : Nat → Nat → Nat

/-- What the kernel supplies to one call: the calling task and whether `kmalloc`
returns a block. -/
structure Kernel where
  current : task_struct
  kmalloc : Bool

/-- The primitives a call invokes, in order, with their arguments and outcome. -/
inductive Event where
  | access_ok (type addr size : Nat) (ok : Bool)
  | get_user (addr : Nat) (ret : Int)
  | put_user (val : Int) (addr : Nat) (ret : Int)
  | copy_to_user (addr : Nat) (info : task_info) (n : Nat) (ret : Nat)
  | list_for_each
  | mutex_lock
  | kmalloc (ok : Bool)
  | list_add_tail (r : record)
  | mutex_unlock
  | printk (level : String) (msg : String)
  | cdev_del
  | unregister_chrdev_region
  | kfree (r : record)
deriving DecidableEq

/-- The outcome of one call of `scull_ioctl`. -/
structure Ret where
  retval : Int
  dev : Dev
  us : UserSpace
  trace : List Event

/-! ## User-access primitives (`linux/uaccess.h`) -/

/-- The primitive `__get_user(x, ptr)`: returns (status, value left in `x`).  On a
fault the status is `-EFAULT` and `x` is set to zero. -/
def __get_user (us : UserSpace) (addr : Nat) : Int × Int :=
  if us.readable addr then (0, us.word addr) else (-EFAULT, 0)

/-- The primitive `__put_user(x, ptr)`: returns the status and the new user memory. -/
def __put_user (us : UserSpace) (x : Int) (addr : Nat) : Int × UserSpace :=
  if us.writable addr then (0, { us with word := Function.update us.word addr x })
  else (-EFAULT, us)

/-- The primitive `copy_to_user(dst, src, n)`: the number of bytes that could not be
copied, at most `n`. -/
def copy_to_user (us : UserSpace) (dst n : Nat) : Nat :=
  min (us.uncopied dst n) n

/-! ## `scull_ioctl` -/

/-- Lines 108-113 of `scull_ioctl`: the value of `err` after the direction test, with
the range check that was made, if any. -/
def access_check (us : UserSpace) (cmd arg : Nat) : Bool × List Event :=
  if _IOC_DIR cmd &&& _IOC_READ ≠ 0 then
    (!us.access_ok VERIFY_WRITE arg (_IOC_SIZE cmd),
      [Event.access_ok VERIFY_WRITE arg (_IOC_SIZE cmd)
        (us.access_ok VERIFY_WRITE arg (_IOC_SIZE cmd))])
  else if _IOC_DIR cmd &&& _IOC_WRITE ≠ 0 then
    (!us.access_ok VERIFY_READ arg (_IOC_SIZE cmd),
      [Event.access_ok VERIFY_READ arg (_IOC_SIZE cmd)
        (us.access_ok VERIFY_READ arg (_IOC_SIZE cmd))])
  else (false, [])

/-- The snapshot of `current` assembled at lines 151-161. -/
def snapshot (t : task_struct) : task_info where
  state := t.state
  stack := t.stack
  cpu := t.nr_cpus_allowed
  prio := t.prio
  static_prio := t.static_prio
  normal_prio := t.normal_prio
  rt_priority := t.rt_priority
  pid := t.pid
  tgid := t.tgid
  nvcsw := t.nvcsw
  nivcsw := t.nivcsw

/-- The loop of lines 167-173: walk the whole list, setting `unique` to 1 at every record
that carries the caller's pid and tgid; the result is the final value of `unique`. -/
def scan_list : List record → Int → Int → Int → Int
  | [], _, _, unique => unique
  | r :: rs, pid, tgid, unique =>
      scan_list rs pid tgid (if r.pid = pid ∧ r.tgid = tgid then 1 else unique)

/-- Lines 164-188: the duplicate scan, then, when `unique == 0`, the locked allocation
and append.  Returns the new list and the primitives invoked. -/
def register_caller (k : Kernel) (l : List record) : List record × List Event :=
  if scan_list l k.current.pid k.current.tgid 0 = 0 then
    if k.kmalloc then
      (l ++ [⟨k.current.pid, k.current.tgid⟩],
        [Event.list_for_each, Event.mutex_lock, Event.kmalloc true,
         Event.list_add_tail ⟨k.current.pid, k.current.tgid⟩, Event.mutex_unlock])
    else
      (l, [Event.list_for_each, Event.mutex_lock, Event.kmalloc false,
           Event.printk "KERN_ERR" "Could not allocate space on linked list.\n",
           Event.mutex_unlock])
  else (l, [Event.list_for_each])

/-- The `switch (cmd)` of `scull_ioctl` (lines 116-195), entered once the command passed
the checks in front of it. -/
def dispatch (h : Header) (k : Kernel) (cmd arg : Nat) (dev : Dev) (us : UserSpace) : Ret :=
  if cmd = h.SCULL_IOCRESET then
    ⟨0, { dev with scull_quantum := h.SCULL_QUANTUM }, us, []⟩
  else if cmd = h.SCULL_IOCSQUANTUM then
    ⟨(__get_user us arg).1, { dev with scull_quantum := (__get_user us arg).2 }, us,
      [Event.get_user arg (__get_user us arg).1]⟩
  else if cmd = h.SCULL_IOCTQUANTUM then
    ⟨0, { dev with scull_quantum := toInt32 arg }, us, []⟩
  else if cmd = h.SCULL_IOCGQUANTUM then
    ⟨(__put_user us dev.scull_quantum arg).1, dev, (__put_user us dev.scull_quantum arg).2,
      [Event.put_user dev.scull_quantum arg (__put_user us dev.scull_quantum arg).1]⟩
  else if cmd = h.SCULL_IOCQQUANTUM then
    ⟨dev.scull_quantum, dev, us, []⟩
  else if cmd = h.SCULL_IOCXQUANTUM then
    let tmp := dev.scull_quantum
    let g := __get_user us arg
    if g.1 = 0 then
      ⟨(__put_user us tmp arg).1, { dev with scull_quantum := g.2 }, (__put_user us tmp arg).2,
        [Event.get_user arg g.1, Event.put_user tmp arg (__put_user us tmp arg).1]⟩
    else
      ⟨g.1, { dev with scull_quantum := g.2 }, us, [Event.get_user arg g.1]⟩
  else if cmd = h.SCULL_IOCHQUANTUM then
    ⟨dev.scull_quantum, { dev with scull_quantum := toInt32 arg }, us, []⟩
  else if cmd = h.SCULL_IOCIQUANTUM then
    let n := copy_to_user us arg h.sizeof_task_info
    let reg := register_caller k dev.mylinkedlist
    ⟨toInt32 n, { dev with mylinkedlist := reg.1 }, us,
      Event.copy_to_user arg (snapshot k.current) h.sizeof_task_info n :: reg.2⟩
  else ⟨-ENOTTY, dev, us, []⟩

/-- The function `scull_ioctl(filp, cmd, arg)`; `cmd` is an `unsigned int`, `arg` an
`unsigned long`. -/
def scull_ioctl (h : Header) (k : Kernel) (cmd arg : Nat) (dev : Dev) (us : UserSpace) : Ret :=
  if _IOC_TYPE cmd ≠ h.SCULL_IOC_MAGIC then ⟨-ENOTTY, dev, us, []⟩
  else if _IOC_NR cmd > h.SCULL_IOC_MAXNR then ⟨-ENOTTY, dev, us, []⟩
  else if (access_check us cmd arg).1 then ⟨-EFAULT, dev, us, (access_check us cmd arg).2⟩
  else
    let r := dispatch h k cmd arg dev us
    { r with trace := (access_check us cmd arg).2 ++ r.trace }

/-- One call of `scull_ioctl`: the kernel context, the command and the argument. -/
structure Call where
  k : Kernel
  cmd : Nat
  arg : Nat

/-- Calls issued one after another: each starts in the state and user memory the previous
one left. -/
def run (h : Header) : List Call → Dev → UserSpace → Dev × UserSpace
  | [], dev, us => (dev, us)
  | c :: cs, dev, us =>
      run h cs (scull_ioctl h c.k c.cmd c.arg dev us).dev (scull_ioctl h c.k c.cmd c.arg dev us).us

/-- A mutating call of the kind RESET / SET / TELL.  RESET ignores its argument word, SET
takes the address of the value, TELL takes the value itself, converted to `unsigned long`. -/
inductive Mut where
  | RESET (unused : Nat)
  | SET (ptr : Nat)
  | TELL (v : Int)
deriving DecidableEq

/-- The call a `Mut` stands for. -/
def Mut.call (h : Header) (k : Kernel) : Mut → Call
  | Mut.RESET a => ⟨k, h.SCULL_IOCRESET, a⟩
  | Mut.SET p => ⟨k, h.SCULL_IOCSQUANTUM, p⟩
  | Mut.TELL v => ⟨k, h.SCULL_IOCTQUANTUM, toULong v⟩

/-- The value a `Mut` supplies: the compiled-in default, the `int` at the address, the
value passed. -/
def Mut.value (h : Header) (us : UserSpace) : Mut → Int
  | Mut.RESET _ => h.SCULL_QUANTUM
  | Mut.SET p => us.word p
  | Mut.TELL v => v

/-- The conditions under which a `Mut` installs its value: the copy of a SET succeeds (its
pointer passes the range check and the load does not fault), the value of a TELL is a 32-bit
signed integer. -/
def Mut.ok (h : Header) (us : UserSpace) : Mut → Prop
  | Mut.RESET _ => True
  | Mut.SET p =>
      us.access_ok VERIFY_READ p (_IOC_SIZE h.SCULL_IOCSQUANTUM) = true ∧ us.readable p = true
  | Mut.TELL v => -2 ^ 31 ≤ v ∧ v < 2 ^ 31

/-! ## Sample inputs -/

/-- A task with the given pid and tgid. -/
def task (pid tgid : Int) : task_struct where
  state := 0
  stack := 0
  nr_cpus_allowed := 4
  prio := 120
  static_prio := 120
  normal_prio := 120
  rt_priority := 0
  pid := pid
  tgid := tgid
  nvcsw := 0
  nivcsw := 0

/-- A kernel context in which the caller is `task pid tgid` and `kmalloc` succeeds. -/
def caller (pid tgid : Int) : Kernel := ⟨task pid tgid, true⟩

/-- A user memory in which every address passes the range check and can be loaded and
stored, every block copy is complete, and the `int` at address 1000 is `v` (0 elsewhere). -/
def user_mem (v : Int) : UserSpace where
  access_ok := fun _ _ _ => true
  readable := fun _ => true
  writable := fun _ => true
  word := fun a => if a = 1000 then v else 0
  uncopied := fun _ _ => 0

/-- A user memory like `user_mem v` in which no address passes the range check. -/
def kernel_only_mem (v : Int) : UserSpace :=
  { user_mem v with access_ok := fun _ _ _ => false }

/-- The reading of SHIFT the spec gives: QUERY the store, then TELL the new value.  The
result is the value the QUERY returned with the state and user memory the TELL left. -/
def query_then_tell (h : Header) (k : Kernel) (arg : Nat) (dev : Dev) (us : UserSpace) :
    Int × Dev × UserSpace :=
  ((scull_ioctl h k h.SCULL_IOCQQUANTUM 0 dev us).retval,
   (scull_ioctl h k h.SCULL_IOCTQUANTUM arg
      (scull_ioctl h k h.SCULL_IOCQQUANTUM 0 dev us).dev
      (scull_ioctl h k h.SCULL_IOCQQUANTUM 0 dev us).us).dev,
   (scull_ioctl h k h.SCULL_IOCTQUANTUM arg
      (scull_ioctl h k h.SCULL_IOCQQUANTUM 0 dev us).dev
      (scull_ioctl h k h.SCULL_IOCQQUANTUM 0 dev us).us).us)

/-- A user memory like `user_mem v` in which every load faults. -/
def unreadable_mem (v : Int) : UserSpace :=
  { user_mem v with readable := fun _ => false }

/-- Whether a trace records an attempted store of an `int` to user memory. -/
def attempts_put_user : List Event → Bool
  | [] => false
  | Event.put_user _ _ _ :: _ => true
  | _ :: es => attempts_put_user es

/-! ## The caller registry -/

/-- The identity key of the calling task, as a registry record. -/
def Kernel.key (k : Kernel) : record := ⟨k.current.pid, k.current.tgid⟩

/-- An INFO call made in kernel context `c.1` with argument `c.2`. -/
def info_call (h : Header) (c : Kernel × Nat) : Call := ⟨c.1, h.SCULL_IOCIQUANTUM, c.2⟩

/-- The distinct keys of a sequence in order of first occurrence: every key is kept where it
first occurs and its later occurrences are dropped. -/
def first_seen : List record → List record
  | [] => []
  | k :: ks => k :: (first_seen ks).filter (fun r => r ≠ k)

/-- A user memory like `user_mem v` in which no byte of a block copy gets through. -/
def uncopyable_mem (v : Int) : UserSpace :=
  { user_mem v with uncopied := fun _ n => n }

/-! ## Module teardown -/

/-- The text `printk` produces from the format `"Task %d: PID: %d, TGID: %d\n"`. -/
def task_line (i pid tgid : Int) : String :=
  "Task " ++ toString i ++ ": PID: " ++ toString pid ++ ", TGID: " ++ toString tgid ++ "\n"

/-- The first loop of `scull_cleanup_module` (lines 227-234): one `printk` per record, in
list order, the counter `i` going up by one each time. -/
def print_records : List record → Int → List Event
  | [], _ => []
  | r :: rs, i =>
      Event.printk "KERN_INFO" (task_line i r.pid r.tgid) :: print_records rs (i + 1)

/-- The second loop of `scull_cleanup_module` (lines 236-244): every node is unlinked and
freed.  Returns the list that is left and the `kfree` calls. -/
def free_records : List record → List record × List Event
  | [] => ([], [])
  | r :: rs => ((free_records rs).1, Event.kfree r :: (free_records rs).2)

/-- The function `scull_cleanup_module`: the new driver state and the primitives invoked.
The counter `i` is an `int`; the model does not wrap it, so it stands for registries of
fewer than 2^31 records. -/
def scull_cleanup_module (dev : Dev) : Dev × List Event :=
  ({ dev with mylinkedlist := (free_records dev.mylinkedlist).1 },
   [Event.cdev_del, Event.unregister_chrdev_region] ++ print_records dev.mylinkedlist 1 ++
     (free_records dev.mylinkedlist).2)

/-- The lines a trace writes to the kernel log: the texts of its `printk` calls. -/
def log_lines : List Event → List String
  | [] => []
  | Event.printk _ msg :: es => msg :: log_lines es
  | _ :: es => log_lines es

/-! ## The harness (`src/scull.c`) -/

def EXIT_SUCCESS : Int := 0
def EXIT_FAILURE : Int := 1

/-- The path `CDEV_NAME`. -/
def CDEV_NAME : String := "/dev/scull"

/-- What the harness writes, in order: `printf` and `fprintf(stderr, ..)` with the text
produced, `perror` with its prefix, the usage text for `argv[0]`, and the `printf` of the
fields of a `task_info`. -/
inductive Output where
  | printf (text : String)
  | fprintf_stderr (text : String)
  | perror (s : String)
  | usage (cmd : String)
  | printf_info (info : task_info)
deriving DecidableEq

/-- What the host supplies to one run of the harness: the result of `atoi`, of `open`, of
every `ioctl` (for a request and the `int` handed over, directly or in `q`: the value
returned and the value `q` holds afterwards), the `task_info` an INFO fills in, the result
of `close`, and the value of the local `ret` of `do_op` where no statement assigns it. -/
structure Host where
  atoi : String → Int
  open_fd : Int
  ioctl : Nat → Int → Int × Int
  info : task_info
  close : Int
  unassigned : Int

/-- The code of a character, as the `cmd_t` the harness switches on. -/
def chr (c : Char) : Int := (c.toNat : Int)

/-- The expression `argv[1][0]`: the code of the first character, 0 for the empty
string. -/
def first_char (s : String) : Int :=
  match s.data with
  | [] => 0
  | c :: _ => chr c

/-- The outcome of `parse_arguments`: either it called `exit`, or it returned a command
with `g_quantum` set; both with what was written. -/
inductive Parsed where
  | exited (status : Int) (out : List Output)
  | returned (cmd : Int) (g_quantum : Int) (out : List Output)
deriving DecidableEq

/-- The `switch` of `parse_arguments` (lines 68-92): the command, `g_quantum` and what was
written to `stderr`. -/
def parse_switch (host : Host) (argv : List String) : Int × Int × List Output :=
  let cmd := first_char (argv.getD 1 "")
  if cmd = chr 'S' ∨ cmd = chr 'T' ∨ cmd = chr 'H' ∨ cmd = chr 'X' then
    if argv.length < 3 then
      (-1, 0, [Output.fprintf_stderr (argv.getD 0 "" ++ ": Missing quantum\n")])
    else (cmd, host.atoi (argv.getD 2 ""), [])
  else if cmd = chr 'R' ∨ cmd = chr 'G' ∨ cmd = chr 'Q' ∨ cmd = chr 'i' ∨ cmd = chr 'p' ∨
      cmd = chr 't' ∨ cmd = chr 'h' then
    (cmd, 0, [])
  else (-1, 0, [Output.fprintf_stderr (argv.getD 0 "" ++ ": Invalid command\n")])

/-- The function `parse_arguments(argc, argv)` with `argc = argv.length`; `g_quantum` is 0
until `atoi` sets it. -/
def parse_arguments (host : Host) (argv : List String) : Parsed :=
  let r : Int × Int × List Output :=
    if argv.length < 2 then
      (-1, 0, [Output.fprintf_stderr (argv.getD 0 "" ++ ": Invalid number of arguments\n")])
    else parse_switch host argv
  if r.1 < 0 ∨ r.1 = chr 'h' then
    Parsed.exited (if r.1 = chr 'h' then EXIT_SUCCESS else EXIT_FAILURE)
      (r.2.2 ++ [Output.usage (argv.getD 0 "")])
  else Parsed.returned r.1 r.2.1 r.2.2

/-- The `switch` of `do_op` (lines 107-182): the value of `ret` at its end and what was
written; `none` when `abort()` was called.  The processes and threads of `p` and `t` are
not followed: in the process that runs `do_op` no statement assigns `ret` there. -/
def do_op_switch (h : Header) (host : Host) (cmd g_quantum : Int) :
    Option (Int × List Output) :=
  if cmd = chr 'R' then
    let ret := (host.ioctl h.SCULL_IOCRESET 0).1
    some (ret, if ret = 0 then [Output.printf "Quantum reset\n"] else [])
  else if cmd = chr 'Q' then
    let q := (host.ioctl h.SCULL_IOCQQUANTUM 0).1
    some (0, [Output.printf ("Quantum: " ++ toString q ++ "\n")])
  else if cmd = chr 'G' then
    let r := host.ioctl h.SCULL_IOCGQUANTUM 0
    some (r.1, if r.1 = 0 then [Output.printf ("Quantum: " ++ toString r.2 ++ "\n")] else [])
  else if cmd = chr 'T' then
    let ret := (host.ioctl h.SCULL_IOCTQUANTUM g_quantum).1
    some (ret, if ret = 0 then [Output.printf "Quantum set\n"] else [])
  else if cmd = chr 'S' then
    let ret := (host.ioctl h.SCULL_IOCSQUANTUM g_quantum).1
    some (ret, if ret = 0 then [Output.printf "Quantum set\n"] else [])
  else if cmd = chr 'X' then
    let r := host.ioctl h.SCULL_IOCXQUANTUM g_quantum
    some (r.1, if r.1 = 0 then
      [Output.printf ("Quantum exchanged, old quantum: " ++ toString r.2 ++ "\n")] else [])
  else if cmd = chr 'H' then
    let q := (host.ioctl h.SCULL_IOCHQUANTUM g_quantum).1
    some (0, [Output.printf ("Quantum shifted, old quantum: " ++ toString q ++ "\n")])
  else if cmd = chr 'i' then
    let ret := (host.ioctl h.SCULL_IOCIQUANTUM 0).1
    some (ret, if ret = 0 then [Output.printf_info host.info] else [])
  else if cmd = chr 'p' ∨ cmd = chr 't' then
    some (host.unassigned, [])
  else none

/-- The function `do_op(fd, cmd)`: the value returned and what was written. -/
def do_op (h : Header) (host : Host) (cmd g_quantum : Int) : Option (Int × List Output) :=
  match do_op_switch h host cmd g_quantum with
  | none => none
  | some (ret, out) => some (ret, if ret ≠ 0 then out ++ [Output.perror "ioctl"] else out)

/-- The function `main(argc, argv)`: the exit status of the process and what was written;
`none` when the process was ended by `abort()`. -/
def main (h : Header) (host : Host) (argv : List String) : Option (Int × List Output) :=
  match parse_arguments host argv with
  | Parsed.exited status out => some (status, out)
  | Parsed.returned cmd g_quantum out =>
      if host.open_fd < 0 then some (EXIT_FAILURE, out ++ [Output.perror "cdev open"])
      else
        match do_op h host cmd g_quantum with
        | none => none
        | some (ret, out2) =>
            if host.close ≠ 0 then
              some (EXIT_FAILURE,
                out ++ [Output.printf ("Device (" ++ CDEV_NAME ++ ") opened\n")] ++ out2 ++
                  [Output.perror "cdev close"])
            else
              some (if ret ≠ 0 then EXIT_FAILURE else EXIT_SUCCESS,
                out ++ [Output.printf ("Device (" ++ CDEV_NAME ++ ") opened\n")] ++ out2 ++
                  [Output.printf ("Device (" ++ CDEV_NAME ++ ") closed\n")])

/-- The value of a run of decimal digits, read from the left up to the first other
character. -/
def digits_value : List Char → Int → Int
  | [], acc => acc
  | c :: cs, acc =>
      if c.isDigit then digits_value cs (acc * 10 + ((c.toNat : Int) - 48)) else acc

/-- A decimal `atoi` for the sample hosts: an optional minus sign, then digits. -/
def decimal_atoi (s : String) : Int :=
  match s.data with
  | '-' :: cs => -digits_value cs 0
  | cs => digits_value cs 0

/-- A host on which `open` succeeds, `close` returns `cl` and every `ioctl` returns `r`,
leaving `q` in the caller's `int`. -/
def host_returning (r q cl : Int) : Host where
  atoi := decimal_atoi
  open_fd := 3
  ioctl := fun _ _ => (r, q)
  info := snapshot (task 1 1)
  close := cl
  unassigned := 0

/-- The request and the `int` the harness hands to `ioctl` for a command letter that
reaches the device with one call. -/
def request (h : Header) (cmd g_quantum : Int) : Nat × Int :=
  if cmd = chr 'R' then (h.SCULL_IOCRESET, 0)
  else if cmd = chr 'Q' then (h.SCULL_IOCQQUANTUM, 0)
  else if cmd = chr 'G' then (h.SCULL_IOCGQUANTUM, 0)
  else if cmd = chr 'T' then (h.SCULL_IOCTQUANTUM, g_quantum)
  else if cmd = chr 'S' then (h.SCULL_IOCSQUANTUM, g_quantum)
  else if cmd = chr 'X' then (h.SCULL_IOCXQUANTUM, g_quantum)
  else if cmd = chr 'H' then (h.SCULL_IOCHQUANTUM, g_quantum)
  else (h.SCULL_IOCIQUANTUM, 0)

/-- The exit status of a run of `main`, when the process exits. -/
def exit_status (r : Option (Int × List Output)) : Option Int := r.map (fun p => p.1)

/-! ## INFO calls in flight together

Lines 164-188 of `scull_ioctl` cut at the points where the code itself puts them: the scan
of the list (lines 165-176, made before `mutex_lock`), the `mutex_lock` of line 177, the
allocation and append of lines 178-186, the `mutex_unlock` of line 187.  Each piece is one
atomic step; the scheduler picks which caller makes the next step.  Taking the whole scan as
one step leaves out the schedules in which the list changes during a scan, and adds
none.  A caller may issue further INFO calls once its present call has returned. -/

/-- Where a call stands in lines 164-188. -/
inductive Pc where
  | scan
  | lock
  | insert
  | unlock
  | done
deriving DecidableEq

/-- The registry and its mutex: `lock` is the index of the caller holding it. -/
structure Shared where
  mylinkedlist : List record
  lock : Option Nat
deriving DecidableEq

/-- A caller in flight: its kernel context, the position of its present call, and the
number of INFO calls it will issue after the present one. -/
structure Caller where
  k : Kernel
  pc : Pc
  more : Nat

/-- The callers in flight and the shared state. -/
structure Flight where
  calls : List Caller
  shared : Shared

/-- The step caller `i` makes: its new state and the new shared state.  A caller waiting
for a mutex that another one holds stays where it is; a caller whose call has returned
starts its next call, if it has one to make. -/
def step_call (i : Nat) (c : Caller) (sh : Shared) : Caller × Shared :=
  match c.pc with
  | Pc.scan =>
      if scan_list sh.mylinkedlist c.k.current.pid c.k.current.tgid 0 = 0 then
        ({ c with pc := Pc.lock }, sh)
      else ({ c with pc := Pc.done }, sh)
  | Pc.lock =>
      if sh.lock = none then ({ c with pc := Pc.insert }, { sh with lock := some i })
      else (c, sh)
  | Pc.insert =>
      if c.k.kmalloc then
        ({ c with pc := Pc.unlock },
          { sh with mylinkedlist :=
              sh.mylinkedlist ++ [⟨c.k.current.pid, c.k.current.tgid⟩] })
      else ({ c with pc := Pc.unlock }, sh)
  | Pc.unlock => ({ c with pc := Pc.done }, { sh with lock := none })
  | Pc.done =>
      if 0 < c.more then ({ c with pc := Pc.scan, more := c.more - 1 }, sh) else (c, sh)

/-- The scheduler lets caller `i` make one step. -/
def step (i : Nat) (f : Flight) : Flight :=
  match f.calls[i]? with
  | none => f
  | some c => ⟨f.calls.set i (step_call i c f.shared).1, (step_call i c f.shared).2⟩

/-- The callers make their steps in the order of the schedule. -/
def run_schedule : List Nat → Flight → Flight
  | [], f => f
  | i :: is, f => run_schedule is (step i f)

/-- The callers `cs`, each given with the number of further calls it will make, all about
to start their first call, on registry `l` with the mutex free. -/
def in_flight (cs : List (Kernel × Nat)) (l : List record) : Flight :=
  ⟨cs.map (fun c => ⟨c.1, Pc.scan, c.2⟩), ⟨l, none⟩⟩

/-- Every caller has returned from its last call. -/
def Flight.finished (f : Flight) : Prop :=
  ∀ c ∈ f.calls, c.pc = Pc.done ∧ c.more = 0

instance (f : Flight) : Decidable f.finished := by
  unfold Flight.finished; infer_instance

/-! ## Lemmas on the checks in front of the `switch` -/

theorem toInt32_toULong (v : Int) (h1 : -2 ^ 31 ≤ v) (h2 : v < 2 ^ 31) :
    toInt32 (toULong v) = v := by
  unfold toInt32 toULong
  split_ifs <;> omega

theorem access_check_none (us : UserSpace) (cmd arg : Nat) (hdir : _IOC_DIR cmd = _IOC_NONE) :
    access_check us cmd arg = (false, []) := by
  simp [access_check, hdir, _IOC_NONE]

theorem access_check_write (us : UserSpace) (cmd arg : Nat) (hdir : _IOC_DIR cmd = _IOC_WRITE) :
    access_check us cmd arg =
      (!us.access_ok VERIFY_READ arg (_IOC_SIZE cmd),
        [Event.access_ok VERIFY_READ arg (_IOC_SIZE cmd)
          (us.access_ok VERIFY_READ arg (_IOC_SIZE cmd))]) := by
  simp [access_check, hdir, _IOC_WRITE, _IOC_READ]

theorem access_check_read (us : UserSpace) (cmd arg : Nat)
    (hdir : _IOC_DIR cmd = _IOC_READ ∨ _IOC_DIR cmd = (_IOC_READ ||| _IOC_WRITE)) :
    access_check us cmd arg =
      (!us.access_ok VERIFY_WRITE arg (_IOC_SIZE cmd),
        [Event.access_ok VERIFY_WRITE arg (_IOC_SIZE cmd)
          (us.access_ok VERIFY_WRITE arg (_IOC_SIZE cmd))]) := by
  rcases hdir with hdir | hdir <;> simp [access_check, hdir, _IOC_WRITE, _IOC_READ]

/-- A command that carries the magic tag, has a number within `SCULL_IOC_MAXNR` and passes
the access check reaches the `switch`. -/
theorem scull_ioctl_reaches_switch (h : Header) (k : Kernel) (cmd arg : Nat) (dev : Dev)
    (us : UserSpace) (ht : _IOC_TYPE cmd = h.SCULL_IOC_MAGIC)
    (hn : _IOC_NR cmd ≤ h.SCULL_IOC_MAXNR) (ha : (access_check us cmd arg).1 = false) :
    scull_ioctl h k cmd arg dev us =
      { dispatch h k cmd arg dev us with
        trace := (access_check us cmd arg).2 ++ (dispatch h k cmd arg dev us).trace } := by
  simp [scull_ioctl, ht, Nat.not_lt.mpr hn, ha]

/-- The case labels are pairwise different. -/
theorem Header.Declared.ne {h : Header} (hd : h.Declared) :
    h.SCULL_IOCSQUANTUM ≠ h.SCULL_IOCRESET ∧
    (h.SCULL_IOCTQUANTUM ≠ h.SCULL_IOCRESET ∧ h.SCULL_IOCTQUANTUM ≠ h.SCULL_IOCSQUANTUM) ∧
    (h.SCULL_IOCGQUANTUM ≠ h.SCULL_IOCRESET ∧ h.SCULL_IOCGQUANTUM ≠ h.SCULL_IOCSQUANTUM ∧
      h.SCULL_IOCGQUANTUM ≠ h.SCULL_IOCTQUANTUM) ∧
    (h.SCULL_IOCQQUANTUM ≠ h.SCULL_IOCRESET ∧ h.SCULL_IOCQQUANTUM ≠ h.SCULL_IOCSQUANTUM ∧
      h.SCULL_IOCQQUANTUM ≠ h.SCULL_IOCTQUANTUM ∧ h.SCULL_IOCQQUANTUM ≠ h.SCULL_IOCGQUANTUM) ∧
    (h.SCULL_IOCXQUANTUM ≠ h.SCULL_IOCRESET ∧ h.SCULL_IOCXQUANTUM ≠ h.SCULL_IOCSQUANTUM ∧
      h.SCULL_IOCXQUANTUM ≠ h.SCULL_IOCTQUANTUM ∧ h.SCULL_IOCXQUANTUM ≠ h.SCULL_IOCGQUANTUM ∧
      h.SCULL_IOCXQUANTUM ≠ h.SCULL_IOCQQUANTUM) ∧
    (h.SCULL_IOCHQUANTUM ≠ h.SCULL_IOCRESET ∧ h.SCULL_IOCHQUANTUM ≠ h.SCULL_IOCSQUANTUM ∧
      h.SCULL_IOCHQUANTUM ≠ h.SCULL_IOCTQUANTUM ∧ h.SCULL_IOCHQUANTUM ≠ h.SCULL_IOCGQUANTUM ∧
      h.SCULL_IOCHQUANTUM ≠ h.SCULL_IOCQQUANTUM ∧ h.SCULL_IOCHQUANTUM ≠ h.SCULL_IOCXQUANTUM) ∧
    (h.SCULL_IOCIQUANTUM ≠ h.SCULL_IOCRESET ∧ h.SCULL_IOCIQUANTUM ≠ h.SCULL_IOCSQUANTUM ∧
      h.SCULL_IOCIQUANTUM ≠ h.SCULL_IOCTQUANTUM ∧ h.SCULL_IOCIQUANTUM ≠ h.SCULL_IOCGQUANTUM ∧
      h.SCULL_IOCIQUANTUM ≠ h.SCULL_IOCQQUANTUM ∧ h.SCULL_IOCIQUANTUM ≠ h.SCULL_IOCXQUANTUM ∧
      h.SCULL_IOCIQUANTUM ≠ h.SCULL_IOCHQUANTUM) := by
  have hn := hd.1
  simp only [Header.codes, List.nodup_cons, List.mem_cons, List.mem_singleton, not_or,
    List.not_mem_nil, not_false_eq_true, List.nodup_nil, and_true] at hn
  obtain ⟨⟨a1, a2, a3, a4, a5, a6, a7⟩, ⟨b2, b3, b4, b5, b6, b7⟩, ⟨c3, c4, c5, c6, c7⟩,
    ⟨d4, d5, d6, d7⟩, ⟨e5, e6, e7⟩, ⟨f6, f7⟩, g7⟩ := hn
  exact ⟨Ne.symm a1, ⟨Ne.symm a2, Ne.symm b2⟩, ⟨Ne.symm a3, Ne.symm b3, Ne.symm c3⟩,
    ⟨Ne.symm a4, Ne.symm b4, Ne.symm c4, Ne.symm d4⟩,
    ⟨Ne.symm a5, Ne.symm b5, Ne.symm c5, Ne.symm d5, Ne.symm e5⟩,
    ⟨Ne.symm a6, Ne.symm b6, Ne.symm c6, Ne.symm d6, Ne.symm e6, Ne.symm f6⟩,
    ⟨Ne.symm a7, Ne.symm b7, Ne.symm c7, Ne.symm d7, Ne.symm e7, Ne.symm f7, Ne.symm g7⟩⟩

theorem Header.Declared.gate {h : Header} (hd : h.Declared) {c : Nat} (hc : c ∈ h.codes) :
    _IOC_TYPE c = h.SCULL_IOC_MAGIC ∧ _IOC_NR c ≤ h.SCULL_IOC_MAXNR :=
  hd.2.1 c hc

/-! ## What each declared operation does, checks included -/

theorem ioctl_RESET (h : Header) (hd : h.Declared) (k : Kernel) (arg : Nat) (dev : Dev)
    (us : UserSpace) :
    scull_ioctl h k h.SCULL_IOCRESET arg dev us =
      ⟨0, { dev with scull_quantum := h.SCULL_QUANTUM }, us, []⟩ := by
  have hg := hd.gate (c := h.SCULL_IOCRESET) (by simp [Header.codes])
  have ha := access_check_none us h.SCULL_IOCRESET arg hd.2.2.1
  rw [scull_ioctl_reaches_switch h k _ arg dev us hg.1 hg.2 (by rw [ha])]
  simp [dispatch, ha]

theorem ioctl_SET (h : Header) (hd : h.Declared) (k : Kernel) (arg : Nat) (dev : Dev)
    (us : UserSpace)
    (hok : us.access_ok VERIFY_READ arg (_IOC_SIZE h.SCULL_IOCSQUANTUM) = true) :
    scull_ioctl h k h.SCULL_IOCSQUANTUM arg dev us =
      ⟨(__get_user us arg).1, { dev with scull_quantum := (__get_user us arg).2 }, us,
        [Event.access_ok VERIFY_READ arg (_IOC_SIZE h.SCULL_IOCSQUANTUM) true,
         Event.get_user arg (__get_user us arg).1]⟩ := by
  have hg := hd.gate (c := h.SCULL_IOCSQUANTUM) (by simp [Header.codes])
  have ha := access_check_write us h.SCULL_IOCSQUANTUM arg hd.2.2.2.1
  have hne := hd.ne
  rw [scull_ioctl_reaches_switch h k _ arg dev us hg.1 hg.2 (by rw [ha]; simp [hok])]
  simp [dispatch, ha, hok, hne.1]

theorem ioctl_TELL (h : Header) (hd : h.Declared) (k : Kernel) (arg : Nat) (dev : Dev)
    (us : UserSpace) :
    scull_ioctl h k h.SCULL_IOCTQUANTUM arg dev us =
      ⟨0, { dev with scull_quantum := toInt32 arg }, us, []⟩ := by
  have hg := hd.gate (c := h.SCULL_IOCTQUANTUM) (by simp [Header.codes])
  have ha := access_check_none us h.SCULL_IOCTQUANTUM arg hd.2.2.2.2.1
  have hne := hd.ne
  rw [scull_ioctl_reaches_switch h k _ arg dev us hg.1 hg.2 (by rw [ha])]
  simp [dispatch, ha, hne.2.1]

theorem ioctl_GET (h : Header) (hd : h.Declared) (k : Kernel) (arg : Nat) (dev : Dev)
    (us : UserSpace)
    (hok : us.access_ok VERIFY_WRITE arg (_IOC_SIZE h.SCULL_IOCGQUANTUM) = true) :
    scull_ioctl h k h.SCULL_IOCGQUANTUM arg dev us =
      ⟨(__put_user us dev.scull_quantum arg).1, dev, (__put_user us dev.scull_quantum arg).2,
        [Event.access_ok VERIFY_WRITE arg (_IOC_SIZE h.SCULL_IOCGQUANTUM) true,
         Event.put_user dev.scull_quantum arg (__put_user us dev.scull_quantum arg).1]⟩ := by
  have hg := hd.gate (c := h.SCULL_IOCGQUANTUM) (by simp [Header.codes])
  have ha := access_check_read us h.SCULL_IOCGQUANTUM arg (Or.inl hd.2.2.2.2.2.1)
  have hne := hd.ne
  rw [scull_ioctl_reaches_switch h k _ arg dev us hg.1 hg.2 (by rw [ha]; simp [hok])]
  simp [dispatch, ha, hok, hne.2.2.1]

theorem ioctl_QUERY (h : Header) (hd : h.Declared) (k : Kernel) (arg : Nat) (dev : Dev)
    (us : UserSpace) :
    scull_ioctl h k h.SCULL_IOCQQUANTUM arg dev us = ⟨dev.scull_quantum, dev, us, []⟩ := by
  have hg := hd.gate (c := h.SCULL_IOCQQUANTUM) (by simp [Header.codes])
  have ha := access_check_none us h.SCULL_IOCQQUANTUM arg hd.2.2.2.2.2.2.1
  have hne := hd.ne
  rw [scull_ioctl_reaches_switch h k _ arg dev us hg.1 hg.2 (by rw [ha])]
  simp [dispatch, ha, hne.2.2.2.1]

theorem ioctl_EXCHANGE (h : Header) (hd : h.Declared) (k : Kernel) (arg : Nat) (dev : Dev)
    (us : UserSpace)
    (hok : us.access_ok VERIFY_WRITE arg (_IOC_SIZE h.SCULL_IOCXQUANTUM) = true) :
    scull_ioctl h k h.SCULL_IOCXQUANTUM arg dev us =
      if (__get_user us arg).1 = 0 then
        ⟨(__put_user us dev.scull_quantum arg).1,
          { dev with scull_quantum := (__get_user us arg).2 },
          (__put_user us dev.scull_quantum arg).2,
          [Event.access_ok VERIFY_WRITE arg (_IOC_SIZE h.SCULL_IOCXQUANTUM) true,
           Event.get_user arg (__get_user us arg).1,
           Event.put_user dev.scull_quantum arg (__put_user us dev.scull_quantum arg).1]⟩
      else
        ⟨(__get_user us arg).1, { dev with scull_quantum := (__get_user us arg).2 }, us,
          [Event.access_ok VERIFY_WRITE arg (_IOC_SIZE h.SCULL_IOCXQUANTUM) true,
           Event.get_user arg (__get_user us arg).1]⟩ := by
  have hg := hd.gate (c := h.SCULL_IOCXQUANTUM) (by simp [Header.codes])
  have ha := access_check_read us h.SCULL_IOCXQUANTUM arg (Or.inr hd.2.2.2.2.2.2.2.1)
  have hne := hd.ne
  rw [scull_ioctl_reaches_switch h k _ arg dev us hg.1 hg.2 (by rw [ha]; simp [hok])]
  by_cases hr : (__get_user us arg).1 = 0 <;> simp [dispatch, ha, hok, hne.2.2.2.2.1, hr]

theorem ioctl_SHIFT (h : Header) (hd : h.Declared) (k : Kernel) (arg : Nat) (dev : Dev)
    (us : UserSpace) :
    scull_ioctl h k h.SCULL_IOCHQUANTUM arg dev us =
      ⟨dev.scull_quantum, { dev with scull_quantum := toInt32 arg }, us, []⟩ := by
  have hg := hd.gate (c := h.SCULL_IOCHQUANTUM) (by simp [Header.codes])
  have ha := access_check_none us h.SCULL_IOCHQUANTUM arg hd.2.2.2.2.2.2.2.2.1
  have hne := hd.ne
  rw [scull_ioctl_reaches_switch h k _ arg dev us hg.1 hg.2 (by rw [ha])]
  simp [dispatch, ha, hne.2.2.2.2.2.1]

theorem ioctl_INFO (h : Header) (hd : h.Declared) (k : Kernel) (arg : Nat) (dev : Dev)
    (us : UserSpace)
    (hok : us.access_ok VERIFY_WRITE arg (_IOC_SIZE h.SCULL_IOCIQUANTUM) = true) :
    scull_ioctl h k h.SCULL_IOCIQUANTUM arg dev us =
      ⟨toInt32 (copy_to_user us arg h.sizeof_task_info),
        { dev with mylinkedlist := (register_caller k dev.mylinkedlist).1 }, us,
        Event.access_ok VERIFY_WRITE arg (_IOC_SIZE h.SCULL_IOCIQUANTUM) true ::
          Event.copy_to_user arg (snapshot k.current) h.sizeof_task_info
            (copy_to_user us arg h.sizeof_task_info) ::
          (register_caller k dev.mylinkedlist).2⟩ := by
  have hg := hd.gate (c := h.SCULL_IOCIQUANTUM) (by simp [Header.codes])
  have ha := access_check_read us h.SCULL_IOCIQUANTUM arg (Or.inl hd.2.2.2.2.2.2.2.2.2)
  have hne := hd.ne
  rw [scull_ioctl_reaches_switch h k _ arg dev us hg.1 hg.2 (by rw [ha]; simp [hok])]
  simp [dispatch, ha, hok, hne.2.2.2.2.2.2]

/-- An INFO call that fails the access check is turned away before the `switch`. -/
theorem ioctl_INFO_rejected (h : Header) (hd : h.Declared) (k : Kernel) (arg : Nat) (dev : Dev)
    (us : UserSpace)
    (hok : us.access_ok VERIFY_WRITE arg (_IOC_SIZE h.SCULL_IOCIQUANTUM) = false) :
    scull_ioctl h k h.SCULL_IOCIQUANTUM arg dev us =
      ⟨-EFAULT, dev, us,
        [Event.access_ok VERIFY_WRITE arg (_IOC_SIZE h.SCULL_IOCIQUANTUM) false]⟩ := by
  have hg := hd.gate (c := h.SCULL_IOCIQUANTUM) (by simp [Header.codes])
  have ha := access_check_read us h.SCULL_IOCIQUANTUM arg (Or.inl hd.2.2.2.2.2.2.2.2.2)
  simp [scull_ioctl, hg.1, Nat.not_lt.mpr hg.2, ha, hok]

/-! ## Sequences of RESET / SET / TELL -/

theorem mut_step (h : Header) (hd : h.Declared) (k : Kernel) (dev : Dev) (us : UserSpace)
    (m : Mut) (hm : m.ok h us) :
    scull_ioctl h (m.call h k).k (m.call h k).cmd (m.call h k).arg dev us =
      ⟨0, { dev with scull_quantum := m.value h us }, us,
        (scull_ioctl h (m.call h k).k (m.call h k).cmd (m.call h k).arg dev us).trace⟩ := by
  cases m with
  | RESET a => simp [Mut.call, Mut.value, ioctl_RESET h hd]
  | SET p =>
      obtain ⟨h1, h2⟩ := hm
      simp [Mut.call, Mut.value, ioctl_SET h hd k p dev us h1, __get_user, h2]
  | TELL v =>
      obtain ⟨h1, h2⟩ := hm
      simp [Mut.call, Mut.value, ioctl_TELL h hd, toInt32_toULong v h1 h2]

theorem run_mut (h : Header) (hd : h.Declared) (k : Kernel) (us : UserSpace) :
    ∀ (ms : List Mut) (dev : Dev), (∀ m ∈ ms, m.ok h us) →
      (run h (ms.map (Mut.call h k)) dev us).2 = us ∧
      (run h (ms.map (Mut.call h k)) dev us).1.mylinkedlist = dev.mylinkedlist ∧
      ∀ hne : ms ≠ [],
        (run h (ms.map (Mut.call h k)) dev us).1.scull_quantum = (ms.getLast hne).value h us := by
  intro ms
  induction ms with
  | nil => intro dev _; simp [run]
  | cons m ms ih =>
      intro dev hok
      have hm := hok m (List.mem_cons_self m ms)
      have hs := mut_step h hd k dev us m hm
      have ih' := ih { dev with scull_quantum := m.value h us }
        (fun x hx => hok x (List.mem_cons_of_mem m hx))
      simp only [List.map_cons, run]
      rw [hs]
      refine ⟨ih'.1, ih'.2.1, ?_⟩
      intro _
      by_cases hnil : ms = []
      · subst hnil
        simp [run]
      · rw [List.getLast_cons hnil]
        exact ih'.2.2 hnil

/-- C1.  After any non-empty sequence of RESET / SET / TELL calls by one caller (every SET
copy succeeding, every TELL value a 32-bit signed integer) the store holds the value
installed by the last call: the default `SCULL_QUANTUM` for RESET, the supplied value for
SET and TELL.  A QUERY issued next returns that value as its status, a GET issued next
hands that value to `__put_user` for its out-parameter and, the store succeeding, returns 0
with the out-parameter holding it.  QUERY and GET leave the driver state as it was. -/
theorem C1_get_query_after_mutations (h : Header) (hd : h.Declared) (k : Kernel) (dev : Dev)
    (us : UserSpace) (ms : List Mut) (hne : ms ≠ []) (hok : ∀ m ∈ ms, m.ok h us) :
    (run h (ms.map (Mut.call h k)) dev us).2 = us ∧
    (run h (ms.map (Mut.call h k)) dev us).1.scull_quantum = (ms.getLast hne).value h us ∧
    (∀ arg : Nat,
      (scull_ioctl h k h.SCULL_IOCQQUANTUM arg (run h (ms.map (Mut.call h k)) dev us).1 us).retval
          = (ms.getLast hne).value h us ∧
      (scull_ioctl h k h.SCULL_IOCQQUANTUM arg (run h (ms.map (Mut.call h k)) dev us).1 us).dev
          = (run h (ms.map (Mut.call h k)) dev us).1) ∧
    (∀ arg : Nat,
      (scull_ioctl h k h.SCULL_IOCGQUANTUM arg (run h (ms.map (Mut.call h k)) dev us).1 us).dev
          = (run h (ms.map (Mut.call h k)) dev us).1 ∧
      (us.access_ok VERIFY_WRITE arg (_IOC_SIZE h.SCULL_IOCGQUANTUM) = true →
        (scull_ioctl h k h.SCULL_IOCGQUANTUM arg
            (run h (ms.map (Mut.call h k)) dev us).1 us).trace =
          [Event.access_ok VERIFY_WRITE arg (_IOC_SIZE h.SCULL_IOCGQUANTUM) true,
           Event.put_user ((ms.getLast hne).value h us) arg
             (scull_ioctl h k h.SCULL_IOCGQUANTUM arg
               (run h (ms.map (Mut.call h k)) dev us).1 us).retval] ∧
        (us.writable arg = true →
          (scull_ioctl h k h.SCULL_IOCGQUANTUM arg
              (run h (ms.map (Mut.call h k)) dev us).1 us).retval = 0 ∧
          (scull_ioctl h k h.SCULL_IOCGQUANTUM arg
              (run h (ms.map (Mut.call h k)) dev us).1 us).us.word arg =
            (ms.getLast hne).value h us))) := by
  obtain ⟨hus, _, hq⟩ := run_mut h hd k us ms dev hok
  have hq := hq hne
  refine ⟨hus, hq, ?_, ?_⟩
  · intro arg
    simp [ioctl_QUERY h hd, hq]
  · intro arg
    constructor
    · cases hacc : us.access_ok VERIFY_WRITE arg (_IOC_SIZE h.SCULL_IOCGQUANTUM) with
      | true => simp [ioctl_GET h hd k arg _ us hacc]
      | false =>
          have hg := hd.gate (c := h.SCULL_IOCGQUANTUM) (by simp [Header.codes])
          have ha := access_check_read us h.SCULL_IOCGQUANTUM arg (Or.inl hd.2.2.2.2.2.1)
          simp [scull_ioctl, hg.1, Nat.not_lt.mpr hg.2, ha, hacc]
    · intro hacc
      rw [ioctl_GET h hd k arg _ us hacc]
      refine ⟨by simp [hq], ?_⟩
      intro hw
      simp [__put_user, hw, hq]

theorem scull_h_declared : scull_h.Declared := by decide

/-- C1 at concrete inputs: from quantum 9, `R` then `Q` returns the default 4000; `S 77`
(the 77 stored at address 1000) then `G` on address 2000 returns 0 and leaves 77 there. -/
theorem C1_get_query_after_mutations_witness :
    (scull_ioctl scull_h (caller 1 1) scull_h.SCULL_IOCQQUANTUM 0
        (run scull_h ([Mut.RESET 0].map (Mut.call scull_h (caller 1 1))) ⟨9, []⟩
          (user_mem 77)).1 (user_mem 77)).retval = 4000 ∧
    (scull_ioctl scull_h (caller 1 1) scull_h.SCULL_IOCGQUANTUM 2000
        (run scull_h ([Mut.SET 1000].map (Mut.call scull_h (caller 1 1))) ⟨9, []⟩
          (user_mem 77)).1 (user_mem 77)).retval = 0 ∧
    (scull_ioctl scull_h (caller 1 1) scull_h.SCULL_IOCGQUANTUM 2000
        (run scull_h ([Mut.SET 1000].map (Mut.call scull_h (caller 1 1))) ⟨9, []⟩
          (user_mem 77)).1 (user_mem 77)).us.word 2000 = 77 :=
  ⟨((C1_get_query_after_mutations scull_h scull_h_declared (caller 1 1) ⟨9, []⟩ (user_mem 77)
      [Mut.RESET 0] (by simp) (by simp [Mut.ok])).2.2.1 0).1,
   (((C1_get_query_after_mutations scull_h scull_h_declared (caller 1 1) ⟨9, []⟩ (user_mem 77)
      [Mut.SET 1000] (by simp) (by simp [Mut.ok, user_mem])).2.2.2 2000).2 rfl).2 rfl⟩

/-! ## EXCHANGE and SHIFT -/

/-- C2.  With the store holding `q` and the in-parameter holding `v`, an EXCHANGE whose
two copies succeed returns 0, leaves the out-parameter holding `q` and the store holding
`v` (a QUERY issued next returns `v`); the registry is untouched. -/
theorem C2_exchange_swaps (h : Header) (hd : h.Declared) (k : Kernel) (arg : Nat) (dev : Dev)
    (us : UserSpace) (q v : Int) (hq : dev.scull_quantum = q) (hv : us.word arg = v)
    (hok : us.access_ok VERIFY_WRITE arg (_IOC_SIZE h.SCULL_IOCXQUANTUM) = true)
    (hr : us.readable arg = true) (hw : us.writable arg = true) :
    (scull_ioctl h k h.SCULL_IOCXQUANTUM arg dev us).retval = 0 ∧
    (scull_ioctl h k h.SCULL_IOCXQUANTUM arg dev us).us.word arg = q ∧
    (scull_ioctl h k h.SCULL_IOCXQUANTUM arg dev us).dev = { dev with scull_quantum := v } ∧
    ∀ a : Nat,
      (scull_ioctl h k h.SCULL_IOCQQUANTUM a
        (scull_ioctl h k h.SCULL_IOCXQUANTUM arg dev us).dev
        (scull_ioctl h k h.SCULL_IOCXQUANTUM arg dev us).us).retval = v := by
  have hx := ioctl_EXCHANGE h hd k arg dev us hok
  have hg : (__get_user us arg) = (0, v) := by simp [__get_user, hr, hv]
  rw [hg] at hx
  simp only [if_true] at hx
  rw [hx]
  refine ⟨by simp [__put_user, hw], by simp [__put_user, hw, hq], rfl, ?_⟩
  intro a
  simp [ioctl_QUERY h hd]

/-- C2 at the spec's input: the store holds 77 and `X 5` is issued (the 5 at address
1000): the call returns 0, address 1000 then holds 77 and a following `Q` returns 5. -/
theorem C2_exchange_swaps_witness :
    (scull_ioctl scull_h (caller 1 1) scull_h.SCULL_IOCXQUANTUM 1000 ⟨77, []⟩
        (user_mem 5)).retval = 0 ∧
    (scull_ioctl scull_h (caller 1 1) scull_h.SCULL_IOCXQUANTUM 1000 ⟨77, []⟩
        (user_mem 5)).us.word 1000 = 77 ∧
    (scull_ioctl scull_h (caller 1 1) scull_h.SCULL_IOCQQUANTUM 0
        (scull_ioctl scull_h (caller 1 1) scull_h.SCULL_IOCXQUANTUM 1000 ⟨77, []⟩
          (user_mem 5)).dev
        (scull_ioctl scull_h (caller 1 1) scull_h.SCULL_IOCXQUANTUM 1000 ⟨77, []⟩
          (user_mem 5)).us).retval = 5 :=
  have w := C2_exchange_swaps scull_h scull_h_declared (caller 1 1) 1000 ⟨77, []⟩ (user_mem 5)
    77 5 rfl rfl rfl rfl rfl
  ⟨w.1, w.2.1, w.2.2.2 0⟩

/-- C3.  With the store holding `q`, SHIFT of a 32-bit signed value `v` returns `q` as
the status of the call and leaves the store holding `v`.  For every argument word SHIFT
returns what a QUERY returns in the same state and ends in the state and user memory in
which a TELL of the same argument ends: it is QUERY followed by TELL. -/
theorem C3_shift_is_query_then_tell (h : Header) (hd : h.Declared) (k : Kernel) (dev : Dev)
    (us : UserSpace) (q v : Int) (hq : dev.scull_quantum = q)
    (h1 : -2 ^ 31 ≤ v) (h2 : v < 2 ^ 31) :
    (scull_ioctl h k h.SCULL_IOCHQUANTUM (toULong v) dev us).retval = q ∧
    (scull_ioctl h k h.SCULL_IOCHQUANTUM (toULong v) dev us).dev =
      { dev with scull_quantum := v } ∧
    (∀ arg : Nat,
      (scull_ioctl h k h.SCULL_IOCHQUANTUM arg dev us).retval = q ∧
      (scull_ioctl h k h.SCULL_IOCHQUANTUM arg dev us).retval =
        (scull_ioctl h k h.SCULL_IOCQQUANTUM 0 dev us).retval ∧
      (scull_ioctl h k h.SCULL_IOCHQUANTUM arg dev us).dev =
        (scull_ioctl h k h.SCULL_IOCTQUANTUM arg dev us).dev ∧
      ((scull_ioctl h k h.SCULL_IOCHQUANTUM arg dev us).retval,
        (scull_ioctl h k h.SCULL_IOCHQUANTUM arg dev us).dev,
        (scull_ioctl h k h.SCULL_IOCHQUANTUM arg dev us).us) =
        query_then_tell h k arg dev us) := by
  refine ⟨by simp [ioctl_SHIFT h hd, hq], ?_, ?_⟩
  · simp [ioctl_SHIFT h hd, toInt32_toULong v h1 h2]
  · intro arg
    simp [ioctl_SHIFT h hd, ioctl_QUERY h hd, ioctl_TELL h hd, query_then_tell, hq]

/-- C3 at a concrete input: the store holds 77 and `H 5` is issued: the call returns 77
and the store then holds 5. -/
theorem C3_shift_is_query_then_tell_witness :
    (scull_ioctl scull_h (caller 1 1) scull_h.SCULL_IOCHQUANTUM (toULong 5) ⟨77, []⟩
        (user_mem 0)).retval = 77 ∧
    (scull_ioctl scull_h (caller 1 1) scull_h.SCULL_IOCHQUANTUM (toULong 5) ⟨77, []⟩
        (user_mem 0)).dev = ⟨5, []⟩ :=
  have w := C3_shift_is_query_then_tell scull_h scull_h_declared (caller 1 1) ⟨77, []⟩
    (user_mem 0) 77 5 rfl (by decide) (by decide)
  ⟨w.1, w.2.1⟩

/-! ## Codes that are not declared -/

/-- What the dispatcher does with a code that is not declared.  A code whose magic tag is
not `SCULL_IOC_MAGIC` or whose number exceeds `SCULL_IOC_MAXNR` is rejected with `-ENOTTY`
before the access check: the result is the same for every argument and user memory, no
primitive is invoked, store and registry are unchanged.  Every code that is none of the
eight declared ones leaves store, registry and user memory unchanged as well; when it has
the magic tag and a number within `SCULL_IOC_MAXNR` it passes the two tests of lines 99-100,
and is rejected after the access check, with `-EFAULT` when the check fails and `-ENOTTY`
when it passes. -/
theorem undeclared_code_outcome (h : Header) (k : Kernel) (cmd arg : Nat) (dev : Dev)
    (us : UserSpace) :
    ((_IOC_TYPE cmd ≠ h.SCULL_IOC_MAGIC ∨ h.SCULL_IOC_MAXNR < _IOC_NR cmd) →
      scull_ioctl h k cmd arg dev us = ⟨-ENOTTY, dev, us, []⟩) ∧
    (cmd ∉ h.codes →
      (scull_ioctl h k cmd arg dev us).dev = dev ∧
      (scull_ioctl h k cmd arg dev us).us = us ∧
      (_IOC_TYPE cmd = h.SCULL_IOC_MAGIC → _IOC_NR cmd ≤ h.SCULL_IOC_MAXNR →
        (scull_ioctl h k cmd arg dev us).trace = (access_check us cmd arg).2 ∧
        (scull_ioctl h k cmd arg dev us).retval =
          if (access_check us cmd arg).1 then -EFAULT else -ENOTTY)) := by
  constructor
  · rintro (ht | hn)
    · simp [scull_ioctl, ht]
    · simp [scull_ioctl, hn]
  · intro hc
    simp only [Header.codes, List.mem_cons, List.mem_singleton, not_or, List.not_mem_nil,
      or_false] at hc
    obtain ⟨c1, c2, c3, c4, c5, c6, c7, c8⟩ := hc
    have hdisp : dispatch h k cmd arg dev us = ⟨-ENOTTY, dev, us, []⟩ := by
      simp [dispatch, c1, c2, c3, c4, c5, c6, c7, c8]
    refine ⟨?_, ?_, ?_⟩
    · unfold scull_ioctl
      split_ifs <;> simp [hdisp]
    · unfold scull_ioctl
      split_ifs <;> simp [hdisp]
    · intro ht hn
      cases ha : (access_check us cmd arg).1 <;>
        simp [scull_ioctl, ht, Nat.not_lt.mpr hn, hdisp, ha]

/-- C4 fails on the code.  The comment in front of the tests of lines 99-100 says that
wrong commands return `-ENOTTY` before `access_ok()`, and the `default` label is commented
as redundant.  Under the spec's numbering 1..8 the code with the magic tag, number 0 and an
out direction lies outside the declared range and is none of the eight declared codes; it
passes both tests, and with a pointer that fails the range check the dispatcher consults the
access check and returns `-EFAULT`, with an accessible pointer it reaches `default` and
returns `-ENOTTY`.  The same happens for the code that has RESET's number 1 but an out
direction.  Store and registry are unchanged in each of these calls. -/
theorem C4_undeclared_code_reaches_access_check :
    (_IOC_TYPE (_IOC _IOC_READ 107 0 4) = scull_h.SCULL_IOC_MAGIC ∧
     _IOC_NR (_IOC _IOC_READ 107 0 4) = 0 ∧
     _IOC _IOC_READ 107 0 4 ∉ scull_h.codes ∧
     (scull_ioctl scull_h (caller 1 1) (_IOC _IOC_READ 107 0 4) 1000 ⟨77, []⟩
        (kernel_only_mem 0)).retval = -EFAULT ∧
     (scull_ioctl scull_h (caller 1 1) (_IOC _IOC_READ 107 0 4) 1000 ⟨77, []⟩
        (kernel_only_mem 0)).trace = [Event.access_ok VERIFY_WRITE 1000 4 false] ∧
     (scull_ioctl scull_h (caller 1 1) (_IOC _IOC_READ 107 0 4) 1000 ⟨77, []⟩
        (kernel_only_mem 0)).dev = ⟨77, []⟩ ∧
     (scull_ioctl scull_h (caller 1 1) (_IOC _IOC_READ 107 0 4) 1000 ⟨77, []⟩
        (user_mem 0)).retval = -ENOTTY ∧
     (scull_ioctl scull_h (caller 1 1) (_IOC _IOC_READ 107 0 4) 1000 ⟨77, []⟩
        (user_mem 0)).trace = [Event.access_ok VERIFY_WRITE 1000 4 true]) ∧
    (_IOC _IOC_READ 107 1 4 ∉ scull_h.codes ∧
     (scull_ioctl scull_h (caller 1 1) (_IOC _IOC_READ 107 1 4) 1000 ⟨77, []⟩
        (kernel_only_mem 0)).retval = -EFAULT ∧
     (scull_ioctl scull_h (caller 1 1) (_IOC _IOC_READ 107 1 4) 1000 ⟨77, []⟩
        (kernel_only_mem 0)).dev = ⟨77, []⟩) := by
  decide

/-! ## EXCHANGE when a copy fails -/

/-- C7 as the code has it.  For EXCHANGE with a pointer that passes the access check, the
store of the saved old quantum is attempted exactly when the load of the new value
succeeded.  When the load fails no store is attempted, the user memory is left as it was
and the call returns the failure of the load, `-EFAULT`. -/
theorem C7_exchange_read_failure_skips_write (h : Header) (hd : h.Declared) (k : Kernel)
    (arg : Nat) (dev : Dev) (us : UserSpace)
    (hok : us.access_ok VERIFY_WRITE arg (_IOC_SIZE h.SCULL_IOCXQUANTUM) = true) :
    (attempts_put_user (scull_ioctl h k h.SCULL_IOCXQUANTUM arg dev us).trace = true ↔
      us.readable arg = true) ∧
    (us.readable arg = false →
      (scull_ioctl h k h.SCULL_IOCXQUANTUM arg dev us).trace =
        [Event.access_ok VERIFY_WRITE arg (_IOC_SIZE h.SCULL_IOCXQUANTUM) true,
         Event.get_user arg (-EFAULT)] ∧
      (scull_ioctl h k h.SCULL_IOCXQUANTUM arg dev us).us = us ∧
      (scull_ioctl h k h.SCULL_IOCXQUANTUM arg dev us).retval = -EFAULT) ∧
    (us.readable arg = true →
      (scull_ioctl h k h.SCULL_IOCXQUANTUM arg dev us).trace =
        [Event.access_ok VERIFY_WRITE arg (_IOC_SIZE h.SCULL_IOCXQUANTUM) true,
         Event.get_user arg 0,
         Event.put_user dev.scull_quantum arg
           (scull_ioctl h k h.SCULL_IOCXQUANTUM arg dev us).retval]) := by
  rw [ioctl_EXCHANGE h hd k arg dev us hok]
  cases hr : us.readable arg <;>
    simp [__get_user, hr, attempts_put_user, EFAULT]

/-- C7 at a concrete input: the store holds 77 and `X` is issued on an address whose load
faults: the trace is the access check and the failed load, and the call returns `-EFAULT`. -/
theorem C7_exchange_read_failure_skips_write_witness :
    (scull_ioctl scull_h (caller 1 1) scull_h.SCULL_IOCXQUANTUM 1000 ⟨77, []⟩
        (unreadable_mem 5)).trace =
      [Event.access_ok VERIFY_WRITE 1000 (_IOC_SIZE scull_h.SCULL_IOCXQUANTUM) true,
       Event.get_user 1000 (-EFAULT)] ∧
    (scull_ioctl scull_h (caller 1 1) scull_h.SCULL_IOCXQUANTUM 1000 ⟨77, []⟩
        (unreadable_mem 5)).retval = -EFAULT :=
  have w := (C7_exchange_read_failure_skips_write scull_h scull_h_declared (caller 1 1) 1000
    ⟨77, []⟩ (unreadable_mem 5) rfl).2.1 rfl
  ⟨w.1, w.2.2⟩

/-- C7 as stated fails: the store holds 77, the address is writable but its load faults.
EXCHANGE attempts no store (the trace has no `put_user`, the word at the address is still
5) and returns `-EFAULT`. -/
theorem C7_counterexample :
    (unreadable_mem 5).writable 1000 = true ∧
    attempts_put_user (scull_ioctl scull_h (caller 1 1) scull_h.SCULL_IOCXQUANTUM 1000
        ⟨77, []⟩ (unreadable_mem 5)).trace = false ∧
    (scull_ioctl scull_h (caller 1 1) scull_h.SCULL_IOCXQUANTUM 1000 ⟨77, []⟩
        (unreadable_mem 5)).us.word 1000 = 5 ∧
    (scull_ioctl scull_h (caller 1 1) scull_h.SCULL_IOCXQUANTUM 1000 ⟨77, []⟩
        (unreadable_mem 5)).retval = -EFAULT := by
  decide

/-! ## The caller registry, calls one after another -/

theorem scan_list_eq (l : List record) (pid tgid u : Int) :
    scan_list l pid tgid u = if (⟨pid, tgid⟩ : record) ∈ l then 1 else u := by
  induction l generalizing u with
  | nil => simp [scan_list]
  | cons r rs ih =>
      rw [scan_list, ih]
      by_cases hr : r.pid = pid ∧ r.tgid = tgid
      · have : r = ⟨pid, tgid⟩ := by cases r; simp_all
        simp [hr, this]
      · have : (⟨pid, tgid⟩ : record) ≠ r := by
          intro he; apply hr; rw [← he]; exact ⟨rfl, rfl⟩
        simp [hr, this]

theorem scan_list_zero_iff (l : List record) (k : Kernel) :
    scan_list l k.current.pid k.current.tgid 0 = 0 ↔ k.key ∉ l := by
  rw [scan_list_eq]
  by_cases hm : (⟨k.current.pid, k.current.tgid⟩ : record) ∈ l <;> simp [hm, Kernel.key]

/-- The registry a call of lines 164-188 leaves: the caller appended when it is not yet
recorded and the allocation succeeds, the registry as it was otherwise. -/
theorem register_caller_list (k : Kernel) (l : List record) :
    (register_caller k l).1 = if k.key ∉ l ∧ k.kmalloc = true then l ++ [k.key] else l := by
  unfold register_caller
  by_cases hm : k.key ∈ l
  · have : ¬ scan_list l k.current.pid k.current.tgid 0 = 0 := by
      rw [scan_list_zero_iff]; simpa using hm
    simp [this, hm]
  · have : scan_list l k.current.pid k.current.tgid 0 = 0 := (scan_list_zero_iff l k).mpr hm
    have hm' : (⟨k.current.pid, k.current.tgid⟩ : record) ∉ l := hm
    cases hk : k.kmalloc <;> simp [this, hm', hk, Kernel.key]

theorem first_seen_mem (ks : List record) (r : record) : r ∈ first_seen ks ↔ r ∈ ks := by
  induction ks with
  | nil => simp [first_seen]
  | cons k ks ih =>
      simp only [first_seen, List.mem_cons, List.mem_filter, ih, decide_eq_true_eq]
      by_cases hr : r = k <;> simp [hr]

theorem first_seen_nodup (ks : List record) : (first_seen ks).Nodup := by
  induction ks with
  | nil => simp [first_seen]
  | cons k ks ih =>
      simp only [first_seen, List.nodup_cons, List.mem_filter, decide_eq_true_eq]
      exact ⟨fun hk => hk.2 rfl, ih.filter _⟩

theorem first_seen_sublist (ks : List record) : (first_seen ks).Sublist ks := by
  induction ks with
  | nil => simp [first_seen]
  | cons k ks ih =>
      simp only [first_seen]
      exact ((List.filter_sublist _).trans ih).cons₂ k

/-- INFO calls one after another, each passing the access check and each allocation
succeeding, extend the registry `l` by the keys not yet in it, in order of first
occurrence. -/
theorem run_info (h : Header) (hd : h.Declared) (us : UserSpace) :
    ∀ (cs : List (Kernel × Nat)) (dev : Dev),
      (∀ c ∈ cs, us.access_ok VERIFY_WRITE c.2 (_IOC_SIZE h.SCULL_IOCIQUANTUM) = true) →
      (∀ c ∈ cs, c.1.kmalloc = true) →
      (run h (cs.map (info_call h)) dev us).2 = us ∧
      (run h (cs.map (info_call h)) dev us).1 =
        { dev with mylinkedlist := dev.mylinkedlist ++
            (first_seen (cs.map (fun c => c.1.key))).filter (fun r => r ∉ dev.mylinkedlist) } := by
  intro cs
  induction cs with
  | nil => intro dev _ _; simp [run, first_seen]
  | cons c cs ih =>
      intro dev hacc halloc
      have hc := hacc c (List.mem_cons_self c cs)
      have hk := halloc c (List.mem_cons_self c cs)
      simp only [List.map_cons, run, info_call]
      rw [ioctl_INFO h hd c.1 c.2 dev us hc]
      have ih' := ih { dev with mylinkedlist := (register_caller c.1 dev.mylinkedlist).1 }
        (fun x hx => hacc x (List.mem_cons_of_mem c hx))
        (fun x hx => halloc x (List.mem_cons_of_mem c hx))
      simp only [info_call] at ih'
      refine ⟨ih'.1, ?_⟩
      rw [ih'.2, register_caller_list]
      by_cases hm : c.1.key ∈ dev.mylinkedlist
      · simp only [hm, not_true_eq_false, false_and, if_false, first_seen]
        congr 2
        rw [List.filter_cons]
        simp only [hm, not_true_eq_false, decide_False, Bool.false_eq_true, if_false]
        rw [List.filter_filter]
        apply List.filter_congr
        intro r _
        by_cases hr : r ∈ dev.mylinkedlist
        · simp [hr]
        · have : r ≠ c.1.key := fun he => hr (he ▸ hm)
          simp [hr, this]
      · simp only [hm, not_false_eq_true, hk, and_self, if_true, first_seen]
        rw [List.filter_cons]
        simp only [hm, not_false_eq_true, decide_True, if_true]
        rw [List.filter_filter, List.append_assoc, List.singleton_append]
        congr 3
        apply List.filter_congr
        intro r _
        by_cases hr : r ∈ dev.mylinkedlist
        · simp [hr]
        · by_cases he : r = c.1.key <;> simp [hr, he]

/-- What one INFO call does to the registry, whatever the outcome of the access check, of
the copy and of the allocation: the old registry is a prefix of the new one, absence of
duplicates is kept, and a caller already recorded leaves it unchanged. -/
theorem info_step_invariants (h : Header) (hd : h.Declared) (k : Kernel) (arg : Nat)
    (dev : Dev) (us : UserSpace) :
    dev.mylinkedlist <+: (scull_ioctl h k h.SCULL_IOCIQUANTUM arg dev us).dev.mylinkedlist ∧
    (dev.mylinkedlist.Nodup →
      (scull_ioctl h k h.SCULL_IOCIQUANTUM arg dev us).dev.mylinkedlist.Nodup) ∧
    (k.key ∈ dev.mylinkedlist →
      (scull_ioctl h k h.SCULL_IOCIQUANTUM arg dev us).dev.mylinkedlist = dev.mylinkedlist) := by
  cases hacc : us.access_ok VERIFY_WRITE arg (_IOC_SIZE h.SCULL_IOCIQUANTUM) with
  | false =>
      rw [ioctl_INFO_rejected h hd k arg dev us hacc]
      exact ⟨List.prefix_refl _, fun hn => hn, fun _ => rfl⟩
  | true =>
      rw [ioctl_INFO h hd k arg dev us hacc]
      simp only [register_caller_list]
      by_cases hc : k.key ∉ dev.mylinkedlist ∧ k.kmalloc = true
      · rw [if_pos hc]
        refine ⟨List.prefix_append _ _, ?_, fun hm => absurd hm hc.1⟩
        intro hn
        rw [List.nodup_append]
        refine ⟨hn, List.nodup_singleton _, ?_⟩
        intro a ha hb
        rw [List.mem_singleton] at hb
        exact hc.1 (hb ▸ ha)
      · rw [if_neg hc]
        exact ⟨List.prefix_refl _, fun hn => hn, fun _ => rfl⟩

/-- C5 as the code has it.  Starting from an empty registry, after INFO calls made one
after another, each with a pointer that passes the access check and each allocation
succeeding, the registry is the list of the distinct caller keys in order of first
occurrence, without duplicates.  Every single INFO call, whatever its outcome, keeps the old
registry as a prefix of the new one, keeps it free of duplicates, and leaves it unchanged
when the caller is already recorded. -/
theorem C5_registry_first_seen (h : Header) (hd : h.Declared) (us : UserSpace)
    (cs : List (Kernel × Nat)) (q : Int)
    (hacc : ∀ c ∈ cs, us.access_ok VERIFY_WRITE c.2 (_IOC_SIZE h.SCULL_IOCIQUANTUM) = true)
    (halloc : ∀ c ∈ cs, c.1.kmalloc = true) :
    (run h (cs.map (info_call h)) ⟨q, []⟩ us).1.mylinkedlist =
      first_seen (cs.map (fun c => c.1.key)) ∧
    (run h (cs.map (info_call h)) ⟨q, []⟩ us).1.mylinkedlist.Nodup ∧
    (∀ r : record, r ∈ (run h (cs.map (info_call h)) ⟨q, []⟩ us).1.mylinkedlist ↔
      r ∈ cs.map (fun c => c.1.key)) ∧
    (∀ (k : Kernel) (arg : Nat) (dev : Dev) (us1 : UserSpace),
      dev.mylinkedlist <+: (scull_ioctl h k h.SCULL_IOCIQUANTUM arg dev us1).dev.mylinkedlist ∧
      (dev.mylinkedlist.Nodup →
        (scull_ioctl h k h.SCULL_IOCIQUANTUM arg dev us1).dev.mylinkedlist.Nodup) ∧
      (k.key ∈ dev.mylinkedlist →
        (scull_ioctl h k h.SCULL_IOCIQUANTUM arg dev us1).dev.mylinkedlist =
          dev.mylinkedlist)) := by
  have hrun := (run_info h hd us cs ⟨q, []⟩ hacc halloc).2
  have hl : (run h (cs.map (info_call h)) ⟨q, []⟩ us).1.mylinkedlist =
      first_seen (cs.map (fun c => c.1.key)) := by
    rw [hrun]; simp
  refine ⟨hl, ?_, ?_, ?_⟩
  · rw [hl]; exact first_seen_nodup _
  · intro r; rw [hl]; exact first_seen_mem _ r
  · intro k arg dev us1
    exact info_step_invariants h hd k arg dev us1

/-- C5 at a concrete input: INFO by the callers (1,1), (2,1), (1,1), (3,3) in this order
leaves the registry (1,1), (2,1), (3,3). -/
theorem C5_registry_first_seen_witness :
    (run scull_h ([(caller 1 1, 1000), (caller 2 1, 1000), (caller 1 1, 1000),
        (caller 3 3, 1000)].map (info_call scull_h)) ⟨4000, []⟩ (user_mem 0)).1.mylinkedlist =
      [⟨1, 1⟩, ⟨2, 1⟩, ⟨3, 3⟩] :=
  (C5_registry_first_seen scull_h scull_h_declared (user_mem 0)
    [(caller 1 1, 1000), (caller 2 1, 1000), (caller 1 1, 1000), (caller 3 3, 1000)] 4000
    (by decide) (by decide)).1

/-- C5 as stated fails: an INFO call by the caller (7,7) whose pointer fails the access
check, the allocation being able to succeed, returns `-EFAULT` and leaves the empty registry
empty, while the list of distinct caller keys is (7,7). -/
theorem C5_counterexample :
    (caller 7 7).kmalloc = true ∧
    (scull_ioctl scull_h (caller 7 7) scull_h.SCULL_IOCIQUANTUM 1000 ⟨4000, []⟩
        (kernel_only_mem 0)).retval = -EFAULT ∧
    (run scull_h ([(caller 7 7, 1000)].map (info_call scull_h)) ⟨4000, []⟩
        (kernel_only_mem 0)).1.mylinkedlist = [] ∧
    first_seen ([(caller 7 7, 1000)].map (fun c => c.1.key)) = [⟨7, 7⟩] := by
  decide

/-! ## INFO: the copy and the registration do not depend on each other -/

/-- C10.  Two INFO runs from the same state by the same caller, in user memories that
both let the pointer pass the access check and are otherwise arbitrary (in particular differ
in whether the copy succeeds), end in the same driver state: the caller appended when it was
not recorded and the allocation succeeded, the registry as it was otherwise, the quantum
untouched.  Each run returns the result of its own copy, the number of bytes left uncopied,
whether the caller was inserted, was present already, or the allocation failed; when the
allocation failed the state is unchanged. -/
theorem C10_info_copy_and_registration_independent (h : Header) (hd : h.Declared)
    (k : Kernel) (arg : Nat) (dev : Dev) (us1 us2 : UserSpace)
    (h1 : us1.access_ok VERIFY_WRITE arg (_IOC_SIZE h.SCULL_IOCIQUANTUM) = true)
    (h2 : us2.access_ok VERIFY_WRITE arg (_IOC_SIZE h.SCULL_IOCIQUANTUM) = true) :
    (scull_ioctl h k h.SCULL_IOCIQUANTUM arg dev us1).dev =
      (scull_ioctl h k h.SCULL_IOCIQUANTUM arg dev us2).dev ∧
    (scull_ioctl h k h.SCULL_IOCIQUANTUM arg dev us1).dev =
      { dev with mylinkedlist :=
          if k.key ∉ dev.mylinkedlist ∧ k.kmalloc = true then dev.mylinkedlist ++ [k.key]
          else dev.mylinkedlist } ∧
    (scull_ioctl h k h.SCULL_IOCIQUANTUM arg dev us1).retval =
      toInt32 (copy_to_user us1 arg h.sizeof_task_info) ∧
    (scull_ioctl h k h.SCULL_IOCIQUANTUM arg dev us2).retval =
      toInt32 (copy_to_user us2 arg h.sizeof_task_info) ∧
    (h.sizeof_task_info < 2 ^ 31 →
      (scull_ioctl h k h.SCULL_IOCIQUANTUM arg dev us1).retval =
        (copy_to_user us1 arg h.sizeof_task_info : Nat)) ∧
    (k.kmalloc = false →
      (scull_ioctl h k h.SCULL_IOCIQUANTUM arg dev us1).dev = dev) := by
  rw [ioctl_INFO h hd k arg dev us1 h1, ioctl_INFO h hd k arg dev us2 h2]
  simp only [register_caller_list]
  refine ⟨trivial, trivial, trivial, trivial, ?_, ?_⟩
  · intro hs
    have hle : copy_to_user us1 arg h.sizeof_task_info ≤ h.sizeof_task_info := by
      unfold copy_to_user; exact min_le_right _ _
    simp only [toInt32]
    split_ifs <;> omega
  · intro hk
    simp [hk]

/-- C10 at a concrete input: the caller (7,7), not yet recorded, runs INFO once in a
memory where the copy is complete and once in one where nothing can be copied: both runs
leave the registry (7,7); the first returns 0, the second the 64 bytes left. -/
theorem C10_info_copy_and_registration_independent_witness :
    (scull_ioctl scull_h (caller 7 7) scull_h.SCULL_IOCIQUANTUM 1000 ⟨4000, []⟩
        (user_mem 0)).dev = ⟨4000, [⟨7, 7⟩]⟩ ∧
    (scull_ioctl scull_h (caller 7 7) scull_h.SCULL_IOCIQUANTUM 1000 ⟨4000, []⟩
        (uncopyable_mem 0)).dev = ⟨4000, [⟨7, 7⟩]⟩ ∧
    (scull_ioctl scull_h (caller 7 7) scull_h.SCULL_IOCIQUANTUM 1000 ⟨4000, []⟩
        (user_mem 0)).retval = 0 ∧
    (scull_ioctl scull_h (caller 7 7) scull_h.SCULL_IOCIQUANTUM 1000 ⟨4000, []⟩
        (uncopyable_mem 0)).retval = 64 :=
  have w := C10_info_copy_and_registration_independent scull_h scull_h_declared (caller 7 7)
    1000 ⟨4000, []⟩ (user_mem 0) (uncopyable_mem 0) rfl rfl
  ⟨w.2.1, w.1 ▸ w.2.1, w.2.2.1, w.2.2.2.1⟩

/-! ## Module teardown -/

theorem log_lines_append (a b : List Event) : log_lines (a ++ b) = log_lines a ++ log_lines b := by
  induction a with
  | nil => rfl
  | cons e es ih => cases e <;> simp [log_lines, ih]

theorem log_lines_free (l : List record) : log_lines (free_records l).2 = [] := by
  induction l with
  | nil => rfl
  | cons r rs ih => simp [free_records, log_lines, ih]

theorem free_records_empty (l : List record) : (free_records l).1 = [] := by
  induction l with
  | nil => rfl
  | cons r rs ih => simp [free_records, ih]

theorem log_lines_print_length (l : List record) (i : Int) :
    (log_lines (print_records l i)).length = l.length := by
  induction l generalizing i with
  | nil => rfl
  | cons r rs ih => simp [print_records, log_lines, ih]

theorem log_lines_print_get (l : List record) :
    ∀ (i : Int) (j : Nat) (r : record), l[j]? = some r →
      (log_lines (print_records l i))[j]? = some (task_line (i + j) r.pid r.tgid) := by
  induction l with
  | nil => intro i j r hj; simp at hj
  | cons x xs ih =>
      intro i j r hj
      cases j with
      | zero =>
          simp only [List.getElem?_cons_zero, Option.some.injEq] at hj
          simp [print_records, log_lines, hj]
      | succ j =>
          simp only [List.getElem?_cons_succ] at hj
          have := ih (i + 1) j r hj
          simp only [print_records, log_lines, List.getElem?_cons_succ, this]
          congr 2
          push_cast
          ring

/-- C8.  For every registry at teardown, `scull_cleanup_module` writes exactly as many
log lines as there are records; the line at position `j` (counted from 0) is
`Task j+1: PID: <pid>, TGID: <tgid>` of the record at position `j`, so the lines follow the
insertion order with ordinals from 1; afterwards the registry is empty. -/
theorem C8_cleanup_reports_and_empties (dev : Dev) :
    (log_lines (scull_cleanup_module dev).2).length = dev.mylinkedlist.length ∧
    (∀ (j : Nat) (r : record), dev.mylinkedlist[j]? = some r →
      (log_lines (scull_cleanup_module dev).2)[j]? =
        some (task_line ((j : Int) + 1) r.pid r.tgid)) ∧
    (scull_cleanup_module dev).1.mylinkedlist = [] := by
  have hlog : log_lines (scull_cleanup_module dev).2 =
      log_lines (print_records dev.mylinkedlist 1) := by
    simp [scull_cleanup_module, log_lines_append, log_lines_free, log_lines]
  refine ⟨?_, ?_, ?_⟩
  · rw [hlog, log_lines_print_length]
  · intro j r hj
    rw [hlog, log_lines_print_get _ 1 j r hj, add_comm]
  · simp [scull_cleanup_module, free_records_empty]

/-- C8 at the spec's input: the callers (101,101), (102,102), (103,103), (104,104) run
INFO in this order, (102,102) twice; teardown then writes four lines, ordinals 1 to 4, in
first-seen order, and leaves the registry empty. -/
theorem C8_cleanup_reports_and_empties_witness :
    log_lines (scull_cleanup_module
      (run scull_h ([(caller 101 101, 1000), (caller 102 102, 1000), (caller 102 102, 1000),
        (caller 103 103, 1000), (caller 104 104, 1000)].map (info_call scull_h)) ⟨4000, []⟩
        (user_mem 0)).1).2 =
      ["Task 1: PID: 101, TGID: 101\n", "Task 2: PID: 102, TGID: 102\n",
       "Task 3: PID: 103, TGID: 103\n", "Task 4: PID: 104, TGID: 104\n"] ∧
    (scull_cleanup_module
      (run scull_h ([(caller 101 101, 1000), (caller 102 102, 1000), (caller 102 102, 1000),
        (caller 103 103, 1000), (caller 104 104, 1000)].map (info_call scull_h)) ⟨4000, []⟩
        (user_mem 0)).1).1.mylinkedlist = [] :=
  ⟨by decide, (C8_cleanup_reports_and_empties _).2.2⟩

/-! ## The harness -/

theorem chr_values :
    chr 'R' = 82 ∧ chr 'S' = 83 ∧ chr 'T' = 84 ∧ chr 'G' = 71 ∧ chr 'Q' = 81 ∧ chr 'X' = 88 ∧
    chr 'H' = 72 ∧ chr 'i' = 105 ∧ chr 'p' = 112 ∧ chr 't' = 116 ∧ chr 'h' = 104 := by
  decide

theorem do_op_reporting (h : Header) (host : Host) (c g : Int)
    (hc : c ∈ [chr 'R', chr 'S', chr 'T', chr 'G', chr 'X', chr 'i']) :
    ∃ o, do_op h host c g =
        some ((host.ioctl (request h c g).1 (request h c g).2).1, o) ∧
      (Output.perror "ioctl" ∈ o ↔ (host.ioctl (request h c g).1 (request h c g).2).1 ≠ 0) := by
  obtain ⟨cR, cS, cT, cG, cQ, cX, cH, ci, cp, ct, ch⟩ := chr_values
  simp only [List.mem_cons, List.mem_singleton, List.not_mem_nil, or_false] at hc
  simp only [cR, cS, cT, cG, cQ, cX, cH, ci, cp, ct, ch] at hc
  rcases hc with rfl | rfl | rfl | rfl | rfl | rfl
  all_goals
    simp only [do_op, do_op_switch, request, cR, cS, cT, cG, cQ, cX, cH, ci, cp, ct, ch]
    norm_num
    split_ifs <;> simp_all

theorem do_op_data (h : Header) (host : Host) (c g : Int) (hc : c ∈ [chr 'Q', chr 'H']) :
    ∃ o, do_op h host c g = some (0, o) ∧ Output.perror "ioctl" ∉ o := by
  obtain ⟨cR, cS, cT, cG, cQ, cX, cH, ci, cp, ct, ch⟩ := chr_values
  simp only [List.mem_cons, List.mem_singleton, List.not_mem_nil, or_false] at hc
  simp only [cR, cS, cT, cG, cQ, cX, cH, ci, cp, ct, ch] at hc
  rcases hc with rfl | rfl
  all_goals
    simp only [do_op, do_op_switch, cR, cS, cT, cG, cQ, cX, cH, ci, cp, ct, ch]
    norm_num
    intro hne
    cases hne

/-- What `do_op` returns and writes for each of the eight commands that make one call:
`R`, `S`, `T`, `G`, `X`, `i` return what `ioctl` returned and write their message when it
is 0 and the `ioctl` diagnostic otherwise; `Q` and `H` write the value `ioctl` returned as
the quantum and return 0. -/
theorem do_op_results (h : Header) (host : Host) (g : Int) :
    do_op h host (chr 'R') g =
      some ((host.ioctl h.SCULL_IOCRESET 0).1,
        if (host.ioctl h.SCULL_IOCRESET 0).1 = 0 then [Output.printf "Quantum reset\n"]
        else [Output.perror "ioctl"]) ∧
    do_op h host (chr 'S') g =
      some ((host.ioctl h.SCULL_IOCSQUANTUM g).1,
        if (host.ioctl h.SCULL_IOCSQUANTUM g).1 = 0 then [Output.printf "Quantum set\n"]
        else [Output.perror "ioctl"]) ∧
    do_op h host (chr 'T') g =
      some ((host.ioctl h.SCULL_IOCTQUANTUM g).1,
        if (host.ioctl h.SCULL_IOCTQUANTUM g).1 = 0 then [Output.printf "Quantum set\n"]
        else [Output.perror "ioctl"]) ∧
    do_op h host (chr 'G') g =
      some ((host.ioctl h.SCULL_IOCGQUANTUM 0).1,
        if (host.ioctl h.SCULL_IOCGQUANTUM 0).1 = 0 then
          [Output.printf ("Quantum: " ++ toString (host.ioctl h.SCULL_IOCGQUANTUM 0).2 ++ "\n")]
        else [Output.perror "ioctl"]) ∧
    do_op h host (chr 'X') g =
      some ((host.ioctl h.SCULL_IOCXQUANTUM g).1,
        if (host.ioctl h.SCULL_IOCXQUANTUM g).1 = 0 then
          [Output.printf ("Quantum exchanged, old quantum: " ++
            toString (host.ioctl h.SCULL_IOCXQUANTUM g).2 ++ "\n")]
        else [Output.perror "ioctl"]) ∧
    do_op h host (chr 'i') g =
      some ((host.ioctl h.SCULL_IOCIQUANTUM 0).1,
        if (host.ioctl h.SCULL_IOCIQUANTUM 0).1 = 0 then [Output.printf_info host.info]
        else [Output.perror "ioctl"]) ∧
    do_op h host (chr 'Q') g =
      some (0, [Output.printf
        ("Quantum: " ++ toString (host.ioctl h.SCULL_IOCQQUANTUM 0).1 ++ "\n")]) ∧
    do_op h host (chr 'H') g =
      some (0, [Output.printf ("Quantum shifted, old quantum: " ++
        toString (host.ioctl h.SCULL_IOCHQUANTUM g).1 ++ "\n")]) := by
  obtain ⟨cR, cS, cT, cG, cQ, cX, cH, ci, cp, ct, ch⟩ := chr_values
  refine ⟨?_, ?_, ?_, ?_, ?_, ?_, ?_, ?_⟩
  all_goals
    simp only [do_op, do_op_switch, cR, cS, cT, cG, cQ, cX, cH, ci, cp, ct, ch]
    norm_num
  all_goals split_ifs <;> simp_all

/-- How `main` ends once the arguments are accepted, `open` has succeeded and `do_op` has
returned `ret` having written `o`: status 1 when `close` fails or `ret` is not 0, status 0
otherwise; what `do_op` wrote stands between the two device messages. -/
theorem main_after_do_op (h : Header) (host : Host) (argv : List String) (c g : Int)
    (out : List Output) (hp : parse_arguments host argv = Parsed.returned c g out)
    (hopen : 0 ≤ host.open_fd) (ret : Int) (o : List Output)
    (ho : do_op h host c g = some (ret, o)) :
    main h host argv =
      some (if host.close ≠ 0 ∨ ret ≠ 0 then EXIT_FAILURE else EXIT_SUCCESS,
        out ++ [Output.printf ("Device (" ++ CDEV_NAME ++ ") opened\n")] ++ o ++
          [if host.close ≠ 0 then Output.perror "cdev close"
           else Output.printf ("Device (" ++ CDEV_NAME ++ ") closed\n")]) := by
  have hopen' : ¬ host.open_fd < 0 := not_lt.mpr hopen
  simp only [main, hp, hopen', if_false, ho]
  by_cases hcl : host.close = 0 <;> by_cases hr : ret = 0 <;> simp [hcl, hr]

/-- C9 as the code has it.  Missing or invalid arguments end the harness with status 1.
For `R`, `S`, `T`, `G`, `X`, `i` the function `do_op` returns what `ioctl` returned, writes
the message of the command when that is 0 and the `ioctl` diagnostic when it is not, and the
harness, once the command has reached the device (arguments accepted, `open` succeeded),
exits with status 1 when `ioctl` did not return 0 or `close` failed, with status 0
otherwise.  For `Q` and `H` the value `ioctl` returned is written as the quantum, `do_op`
returns 0 and writes no diagnostic whatever `ioctl` returned, and the harness exits with
status 0 unless `close` failed.  In every case what `do_op` wrote is part of what the
harness writes, between the messages that the device was opened and closed. -/
theorem C9_harness_exit_status (h : Header) (host : Host) (argv : List String) :
    ((argv.length < 2 ∨
      (first_char (argv.getD 1 "") ∈ [chr 'S', chr 'T', chr 'H', chr 'X'] ∧ argv.length < 3) ∨
      first_char (argv.getD 1 "") ∉ [chr 'S', chr 'T', chr 'H', chr 'X', chr 'R', chr 'G',
        chr 'Q', chr 'i', chr 'p', chr 't', chr 'h']) →
      exit_status (main h host argv) = some EXIT_FAILURE) ∧
    (∀ g : Int,
      do_op h host (chr 'R') g =
        some ((host.ioctl h.SCULL_IOCRESET 0).1,
          if (host.ioctl h.SCULL_IOCRESET 0).1 = 0 then [Output.printf "Quantum reset\n"]
          else [Output.perror "ioctl"]) ∧
      do_op h host (chr 'S') g =
        some ((host.ioctl h.SCULL_IOCSQUANTUM g).1,
          if (host.ioctl h.SCULL_IOCSQUANTUM g).1 = 0 then [Output.printf "Quantum set\n"]
          else [Output.perror "ioctl"]) ∧
      do_op h host (chr 'T') g =
        some ((host.ioctl h.SCULL_IOCTQUANTUM g).1,
          if (host.ioctl h.SCULL_IOCTQUANTUM g).1 = 0 then [Output.printf "Quantum set\n"]
          else [Output.perror "ioctl"]) ∧
      do_op h host (chr 'G') g =
        some ((host.ioctl h.SCULL_IOCGQUANTUM 0).1,
          if (host.ioctl h.SCULL_IOCGQUANTUM 0).1 = 0 then
            [Output.printf
              ("Quantum: " ++ toString (host.ioctl h.SCULL_IOCGQUANTUM 0).2 ++ "\n")]
          else [Output.perror "ioctl"]) ∧
      do_op h host (chr 'X') g =
        some ((host.ioctl h.SCULL_IOCXQUANTUM g).1,
          if (host.ioctl h.SCULL_IOCXQUANTUM g).1 = 0 then
            [Output.printf ("Quantum exchanged, old quantum: " ++
              toString (host.ioctl h.SCULL_IOCXQUANTUM g).2 ++ "\n")]
          else [Output.perror "ioctl"]) ∧
      do_op h host (chr 'i') g =
        some ((host.ioctl h.SCULL_IOCIQUANTUM 0).1,
          if (host.ioctl h.SCULL_IOCIQUANTUM 0).1 = 0 then [Output.printf_info host.info]
          else [Output.perror "ioctl"]) ∧
      do_op h host (chr 'Q') g =
        some (0, [Output.printf
          ("Quantum: " ++ toString (host.ioctl h.SCULL_IOCQQUANTUM 0).1 ++ "\n")]) ∧
      do_op h host (chr 'H') g =
        some (0, [Output.printf ("Quantum shifted, old quantum: " ++
          toString (host.ioctl h.SCULL_IOCHQUANTUM g).1 ++ "\n")])) ∧
    (∀ (c g : Int) (out : List Output),
      parse_arguments host argv = Parsed.returned c g out → 0 ≤ host.open_fd →
      (∀ (ret : Int) (o : List Output), do_op h host c g = some (ret, o) →
        main h host argv =
          some (if host.close ≠ 0 ∨ ret ≠ 0 then EXIT_FAILURE else EXIT_SUCCESS,
            out ++ [Output.printf ("Device (" ++ CDEV_NAME ++ ") opened\n")] ++ o ++
              [if host.close ≠ 0 then Output.perror "cdev close"
               else Output.printf ("Device (" ++ CDEV_NAME ++ ") closed\n")])) ∧
      (c ∈ [chr 'R', chr 'S', chr 'T', chr 'G', chr 'X', chr 'i'] →
        (∃ o, do_op h host c g =
            some ((host.ioctl (request h c g).1 (request h c g).2).1, o) ∧
          (Output.perror "ioctl" ∈ o ↔
            (host.ioctl (request h c g).1 (request h c g).2).1 ≠ 0)) ∧
        exit_status (main h host argv) =
          some (if (host.ioctl (request h c g).1 (request h c g).2).1 ≠ 0 ∨ host.close ≠ 0
            then EXIT_FAILURE else EXIT_SUCCESS)) ∧
      (c ∈ [chr 'Q', chr 'H'] →
        (∃ o, do_op h host c g = some (0, o) ∧ Output.perror "ioctl" ∉ o ∧
          o = [Output.printf ((if c = chr 'Q' then "Quantum: "
                else "Quantum shifted, old quantum: ") ++
              toString (host.ioctl (request h c g).1 (request h c g).2).1 ++ "\n")]) ∧
        exit_status (main h host argv) =
          some (if host.close ≠ 0 then EXIT_FAILURE else EXIT_SUCCESS))) := by
  obtain ⟨cR, cS, cT, cG, cQ, cX, cH, ci, cp, ct, ch⟩ := chr_values
  refine ⟨?_, fun g => do_op_results h host g, ?_⟩
  · intro hbad
    have hp : ∃ out, parse_arguments host argv = Parsed.exited EXIT_FAILURE out := by
      simp only [List.mem_cons, List.mem_singleton, List.not_mem_nil, or_false, not_or,
        cR, cS, cT, cG, cQ, cX, cH, ci, cp, ct, ch] at hbad
      unfold parse_arguments parse_switch
      simp only [cR, cS, cT, cG, cQ, cX, cH, ci, cp, ct, ch]
      generalize first_char (argv.getD 1 "") = fc at hbad ⊢
      rcases hbad with hlen | ⟨hq, hlen⟩ | hinv
      · simp [hlen]
      · by_cases hl2 : argv.length < 2
        · simp [hl2]
        · simp [hl2, hlen, hq]
      · by_cases hl2 : argv.length < 2
        · simp [hl2]
        · obtain ⟨i1, i2, i3, i4, i5, i6, i7, i8, i9, i10, i11⟩ := hinv
          simp [hl2, i1, i2, i3, i4, i5, i6, i7, i8, i9, i10, i11]
    obtain ⟨out, hp⟩ := hp
    simp [main, hp, exit_status]
  · intro c g out hp hopen
    refine ⟨fun ret o ho => main_after_do_op h host argv c g out hp hopen ret o ho, ?_, ?_⟩
    · intro hc
      obtain ⟨o, ho, hperr⟩ := do_op_reporting h host c g hc
      refine ⟨⟨o, ho, hperr⟩, ?_⟩
      rw [main_after_do_op h host argv c g out hp hopen _ o ho]
      simp only [exit_status, Option.map_some']
      congr 1
      by_cases hcl : host.close = 0 <;>
        by_cases hr : (host.ioctl (request h c g).1 (request h c g).2).1 = 0 <;>
        simp [hcl, hr]
    · intro hc
      have hres := do_op_results h host g
      have ho : ∃ o, do_op h host c g = some (0, o) ∧ Output.perror "ioctl" ∉ o ∧
          o = [Output.printf ((if c = chr 'Q' then "Quantum: "
                else "Quantum shifted, old quantum: ") ++
              toString (host.ioctl (request h c g).1 (request h c g).2).1 ++ "\n")] := by
        simp only [List.mem_cons, List.mem_singleton, List.not_mem_nil, or_false] at hc
        rcases hc with rfl | rfl
        · refine ⟨_, hres.2.2.2.2.2.2.1, by simp, ?_⟩
          simp [request, cR, cQ]
        · refine ⟨_, hres.2.2.2.2.2.2.2, by simp, ?_⟩
          simp [request, cR, cS, cT, cG, cQ, cX, cH]
      obtain ⟨o, ho1, ho2, ho3⟩ := ho
      refine ⟨⟨o, ho1, ho2, ho3⟩, ?_⟩
      rw [main_after_do_op h host argv c g out hp hopen 0 o ho1]
      simp only [exit_status, Option.map_some']
      congr 1
      by_cases hcl : host.close = 0 <;> simp [hcl]

/-- C9 at concrete inputs: `S 77` with `ioctl` returning 0 exits with status 0, with
`ioctl` returning -1 it exits with status 1; `Q` with `ioctl` returning 77 writes
`Quantum: 77` between the two device messages and exits with status 0. -/
theorem C9_harness_exit_status_witness :
    exit_status (main scull_h (host_returning 0 0 0) ["scull", "S", "77"]) =
      some EXIT_SUCCESS ∧
    exit_status (main scull_h (host_returning (-1) 0 0) ["scull", "S", "77"]) =
      some EXIT_FAILURE ∧
    main scull_h (host_returning 77 0 0) ["scull", "Q"] =
      some (EXIT_SUCCESS,
        [Output.printf "Device (/dev/scull) opened\n", Output.printf "Quantum: 77\n",
         Output.printf "Device (/dev/scull) closed\n"]) :=
  ⟨(((C9_harness_exit_status scull_h (host_returning 0 0 0) ["scull", "S", "77"]).2.2
      (chr 'S') 77 [] (by decide) (by decide)).2.1 (by decide)).2,
   (((C9_harness_exit_status scull_h (host_returning (-1) 0 0) ["scull", "S", "77"]).2.2
      (chr 'S') 77 [] (by decide) (by decide)).2.1 (by decide)).2,
   ((C9_harness_exit_status scull_h (host_returning 77 0 0) ["scull", "Q"]).2.2
      (chr 'Q') 0 [] (by decide) (by decide)).1 0 [Output.printf "Quantum: 77\n"]
      (by decide)⟩

/-- C9 as stated fails: with `open` and `close` succeeding and `ioctl` returning -1, the
commands `Q` and `H 5` print the -1 as the quantum, print no `ioctl` diagnostic and exit
with status 0; and `R` with `ioctl` returning 0 but `close` returning -1 exits with
status 1. -/
theorem C9_counterexample :
    main scull_h (host_returning (-1) 0 0) ["scull", "Q"] =
      some (EXIT_SUCCESS,
        [Output.printf "Device (/dev/scull) opened\n", Output.printf "Quantum: -1\n",
         Output.printf "Device (/dev/scull) closed\n"]) ∧
    main scull_h (host_returning (-1) 0 0) ["scull", "H", "5"] =
      some (EXIT_SUCCESS,
        [Output.printf "Device (/dev/scull) opened\n",
         Output.printf "Quantum shifted, old quantum: -1\n",
         Output.printf "Device (/dev/scull) closed\n"]) ∧
    exit_status (main scull_h (host_returning 0 0 (-1)) ["scull", "R"]) =
      some EXIT_FAILURE := by
  decide

/-! ## INFO calls in flight together -/

/-- A call that makes its steps alone leaves the registry that lines 164-188 leave when
executed in one go, with the mutex free. -/
theorem run_schedule_alone (k : Kernel) (l : List record) :
    (run_schedule [0, 0, 0, 0] (in_flight [(k, 0)] l)).shared =
      ⟨(register_caller k l).1, none⟩ ∧
    (run_schedule [0, 0, 0, 0] (in_flight [(k, 0)] l)).finished := by
  by_cases hs : scan_list l k.current.pid k.current.tgid 0 = 0
  · cases hk : k.kmalloc <;>
      simp [run_schedule, step, step_call, in_flight, register_caller, hs, hk,
        Flight.finished]
  · simp [run_schedule, step, step_call, in_flight, register_caller, hs, Flight.finished]

/-- Why the keys of the callers in flight have to differ: were two calls for one key in
flight together (the kernel never produces this, a key names one task), the schedule in
which both scan before either appends would leave two records for the key. -/
theorem shared_key_would_duplicate :
    (run_schedule [0, 1, 0, 0, 0, 1, 1, 1] (in_flight [(caller 7 7, 0), (caller 7 7, 0)]
        [])).shared = ⟨[⟨7, 7⟩, ⟨7, 7⟩], none⟩ := by
  decide

end Scull
